import Mathlib

/-!
Verification of the lxfs create/open engines (src/fs/lxfs/src/create.c and
src/fs/lxfs/src/open.c) of the luxOS filesystem server.

The two C files under verification are embedded shallowly below.  The parts
of the repository they depend on but that are not present in the sources
(the lxfs on-disk header `lxfs.h`, the block-store primitives in the rest of
the driver, the path resolver `lxfsFind`, and the libc headers) are modelled
from the specification, as documented on each definition.  Blocks are
modelled at record granularity: a block's content is a bundle of the parses
the C code performs on it (file header, directory header, raw bytes, and a
directory-entry parse at each byte offset), since the exact byte layout of
the records lives in the missing `lxfs.h`.
-/

/-- Modelled from the spec (§4.1): chain-map value marking an unallocated
block.  The code itself uses the literal `0` for this value (open.c line 99)
and treats a zero return of the block primitives as failure, so `FREE` is 0. -/
def LXFS_BLOCK_FREE : Nat := 0

/-- Modelled from the spec (§4.1): chain-map value marking the last block of
a chain.  The chain map holds 64-bit values; `EOF` is the all-ones marker,
distinct from every valid block index and from `FREE`. -/
def LXFS_BLOCK_EOF : Nat := 2 ^ 64 - 1

/-- Modelled from the spec (§3): the directory-entry flags word holds a
validity bit and a two-bit object-type tag.  `lxfs.h` is not under src/. -/
def LXFS_DIR_VALID : Nat := 1

/-- Modelled from the spec (§3): shift of the type tag inside the flags word. -/
def LXFS_DIR_TYPE_SHIFT : Nat := 1

/-- Modelled from the spec (§3): mask of the type tag inside the flags word. -/
def LXFS_DIR_TYPE_MASK : Nat := 3

/-- Modelled from the spec (§3): type tag of a regular file. -/
def LXFS_DIR_TYPE_FILE : Nat := 0

/-- Modelled from the spec (§3): type tag of a directory. -/
def LXFS_DIR_TYPE_DIR : Nat := 1

/-- Modelled from the spec (§3): type tag of a soft link. -/
def LXFS_DIR_TYPE_SOFT_LINK : Nat := 2

/-- Modelled from the spec (§3): type tag of a hard link. -/
def LXFS_DIR_TYPE_HARD_LINK : Nat := 3

/-- Modelled from the spec (§3): the nine permission bits
(read/write/execute × owner/group/other) of a directory entry. -/
def LXFS_PERMS_OWNER_R : Nat := 1

def LXFS_PERMS_OWNER_W : Nat := 2

def LXFS_PERMS_OWNER_X : Nat := 4

def LXFS_PERMS_GROUP_R : Nat := 8

def LXFS_PERMS_GROUP_W : Nat := 16

def LXFS_PERMS_GROUP_X : Nat := 32

def LXFS_PERMS_OTHER_R : Nat := 64

def LXFS_PERMS_OTHER_W : Nat := 128

def LXFS_PERMS_OTHER_X : Nat := 256

/-- POSIX mode bits (sys/stat.h is not under src/; these are the standard
POSIX octal values used by every libc). -/
def S_IRUSR : Nat := 256

def S_IWUSR : Nat := 128

def S_IXUSR : Nat := 64

def S_IRGRP : Nat := 32

def S_IWGRP : Nat := 16

def S_IXGRP : Nat := 8

def S_IROTH : Nat := 4

def S_IWOTH : Nat := 2

def S_IXOTH : Nat := 1

def S_IFMT : Nat := 61440

def S_IFREG : Nat := 32768

def S_IFDIR : Nat := 16384

def S_IFLNK : Nat := 40960

/-- POSIX `S_ISREG` file-type test. -/
def S_ISREG (m : Nat) : Bool := m &&& S_IFMT == S_IFREG

/-- POSIX `S_ISDIR` file-type test. -/
def S_ISDIR (m : Nat) : Bool := m &&& S_IFMT == S_IFDIR

/-- POSIX `S_ISLNK` file-type test. -/
def S_ISLNK (m : Nat) : Bool := m &&& S_IFMT == S_IFLNK

/-- Modelled from the spec (§6): open flags carried in the open message.
The libc fcntl.h is not under src/; open.c tests each flag by bitwise-and
(`ocmd->flags & O_RDONLY`), so read access, write access, creation,
exclusivity and truncation are independent bits. -/
def O_RDONLY : Nat := 1

def O_WRONLY : Nat := 2

def O_CREAT : Nat := 4

def O_EXCL : Nat := 8

def O_TRUNC : Nat := 16

/-- Negative POSIX error numbers are returned in the status field; the code
negates these positive constants. -/
def ENOENT : Int := 2

def EIOERR : Int := 5

def EACCES : Int := 13

def EEXIST : Int := 17

def EISDIR : Int := 21

def ENOTDIR : Int := 20

def ENOSPC : Int := 28

def ENOSYS : Int := 38

/-- Modelled from the spec (§3): byte size of the directory header record
stored at the start of a directory's first block (`sizeof(LXFSDirectoryHeader)`,
defined in the missing `lxfs.h`). -/
def LXFS_DIRHDR_SIZE : Nat := 48

/-- Modelled from the spec (§3, §4.2): `sizeof(LXFSDirectoryEntry)`, the size
of the fixed directory-entry struct whose trailing name array holds 512
bytes; create.c computes `entrySize = sizeof(LXFSDirectoryEntry) + strlen(name)
- 511`, i.e. fixed header plus name plus terminator. -/
def LXFS_DIRENT_STRUCT_SIZE : Nat := 528

/-- File header stored in the first block of a regular file's chain
(spec §3): reference count and size in bytes. -/
structure LXFSFileHeader where
  refCount : Nat
  size : Nat
deriving Repr, DecidableEq

/-- Directory header stored in the first block of a directory's chain
(spec §3). -/
structure LXFSDirectoryHeader where
  createTime : Nat
  accessTime : Nat
  modTime : Nat
  sizeBytes : Nat
  sizeEntries : Nat
  reserved : Nat
deriving Repr, DecidableEq

/-- In-memory directory entry record (`LXFSDirectoryEntry` of the missing
`lxfs.h`, fields per spec §3).  The name is a byte list. -/
structure LXFSDirectoryEntry where
  flags : Nat
  owner : Nat
  group : Nat
  permissions : Nat
  size : Nat
  createTime : Nat
  accessTime : Nat
  modTime : Nat
  block : Nat
  entrySize : Nat
  reserved : Nat
  name : List Nat
deriving Repr, DecidableEq

/-- Content of one disk block, modelled at record granularity: the bundle of
parses the C code performs on a block's bytes — its file-header parse, its
directory-header parse, its raw bytes (symlink target), and a
directory-entry parse at each byte offset. -/
structure BlockData where
  fileHeader : LXFSFileHeader
  dirHeader : LXFSDirectoryHeader
  raw : List Nat
  entAt : Nat → LXFSDirectoryEntry

/-- The volume's two-block scratch buffer `mp->dataBuffer` (spec §3), with
the same record-granularity views on each half and a directory-entry parse
over the whole two-block range. -/
structure Buffer2 where
  loFile : LXFSFileHeader
  loDir : LXFSDirectoryHeader
  loRaw : List Nat
  hiFile : LXFSFileHeader
  hiDir : LXFSDirectoryHeader
  hiRaw : List Nat
  ents : Nat → LXFSDirectoryEntry

/-- A mounted lxfs volume (`Mountpoint`): block size, chain map, disk blocks,
the `mp->meta` one-block buffer used by open.c, the `mp->dataBuffer`
two-block buffer used by create.c, and an oracle numbering I/O operations
and telling which of them fail (spec §4.1: all I/O failures are reported to
the caller; the oracle makes the failure pattern explicit). -/
structure Mountpoint where
  blockSizeBytes : Nat
  nBlocks : Nat
  chain : Nat → Nat
  disk : Nat → BlockData
  meta : BlockData
  buf : Buffer2
  ioFail : Nat → Bool
  ioCount : Nat

/-- Open request message payload consumed by lxfsOpen (spec §6). -/
structure OpenCommand where
  path : List Nat
  abspath : List Nat
  flags : Nat
  mode : Nat
  umask : Nat
  uid : Nat
  gid : Nat

/-- Modelled from the spec: the environment of a request — the current time
(`time(NULL)`), the Path Resolver `lxfsFind` (§4.3) and the path helpers
`pathDepth` / parent-truncation / `pathComponent`, none of which are under
src/, and the caller's uninitialized stack template entry that open.c passes
to lxfsCreate (open.c declares `LXFSDirectoryEntry entry;` and only sets its
block field before the create call). -/
structure Env where
  now : Nat
  find : List Nat → Option LXFSDirectoryEntry
  pathDepth : List Nat → Nat
  parentPathOf : List Nat → Option (List Nat)
  pathComponent : List Nat → Nat → Option (List Nat)
  stackEntry : LXFSDirectoryEntry

/-- Consume one I/O-operation index and report whether that operation fails. -/
def ioStep (mp : Mountpoint) : Bool × Mountpoint :=
  (mp.ioFail mp.ioCount, { mp with ioCount := mp.ioCount + 1 })

/-- Modelled from the spec (§4.1): `lxfsSetNextBlock` records a chain-map
value for a block; returns true on I/O failure (the C returns nonzero). -/
def lxfsSetNextBlock (mp : Mountpoint) (b v : Nat) : Bool × Mountpoint :=
  match ioStep mp with
  | (true, mp1) => (true, mp1)
  | (false, mp1) => (false, { mp1 with chain := fun x => if x = b then v else mp1.chain x })

/-- Modelled from the spec (§4.1): `lxfsNextBlock` reads a block's chain-map
value; returns 0 on I/O failure (the callers test `!next`). -/
def lxfsNextBlock (mp : Mountpoint) (b : Nat) : Nat × Mountpoint :=
  match ioStep mp with
  | (true, mp1) => (0, mp1)
  | (false, mp1) => (mp1.chain b, mp1)

/-- Modelled from the spec (§4.1): `lxfsFindFreeBlock` is a first-fit linear
scan of the chain map starting at the hint; it returns 0 when no free block
exists (the callers treat a zero result as NoSpace, so block 0 is never an
allocatable block). -/
def lxfsFindFreeBlock (mp : Mountpoint) (hint : Nat) : Nat :=
  match (List.range mp.nBlocks).find?
      (fun i => decide (hint ≤ i) && decide (1 ≤ i) && decide (mp.chain i = LXFS_BLOCK_FREE)) with
  | some i => i
  | none => 0

/-- Modelled from the spec (§4.1): `lxfsReadBlock` into the one-block
`mp->meta` buffer; true on failure. -/
def lxfsReadBlockMeta (mp : Mountpoint) (b : Nat) : Bool × Mountpoint :=
  match ioStep mp with
  | (true, mp1) => (true, mp1)
  | (false, mp1) => (false, { mp1 with meta := mp1.disk b })

/-- Modelled from the spec (§4.1): `lxfsWriteBlock` from the `mp->meta`
buffer; true on failure. -/
def lxfsWriteBlockMeta (mp : Mountpoint) (b : Nat) : Bool × Mountpoint :=
  match ioStep mp with
  | (true, mp1) => (true, mp1)
  | (false, mp1) => (false, { mp1 with disk := fun x => if x = b then mp1.meta else mp1.disk x })

/-- Load a block's content into the lower half of `mp->dataBuffer`. -/
def loadLow (mp : Mountpoint) (bd : BlockData) : Mountpoint :=
  { mp with buf := { mp.buf with
      loFile := bd.fileHeader
      loDir := bd.dirHeader
      loRaw := bd.raw
      ents := fun o => if o < mp.blockSizeBytes then bd.entAt o else mp.buf.ents o } }

/-- Load a block's content into the upper half of `mp->dataBuffer`. -/
def loadHigh (mp : Mountpoint) (bd : BlockData) : Mountpoint :=
  { mp with buf := { mp.buf with
      hiFile := bd.fileHeader
      hiDir := bd.dirHeader
      hiRaw := bd.raw
      ents := fun o => if mp.blockSizeBytes ≤ o then bd.entAt (o - mp.blockSizeBytes) else mp.buf.ents o } }

/-- Project the lower half of `mp->dataBuffer` as block content. -/
def lowProj (mp : Mountpoint) : BlockData :=
  { fileHeader := mp.buf.loFile
    dirHeader := mp.buf.loDir
    raw := mp.buf.loRaw
    entAt := fun o => mp.buf.ents o }

/-- Project the upper half of `mp->dataBuffer` as block content. -/
def highProj (mp : Mountpoint) : BlockData :=
  { fileHeader := mp.buf.hiFile
    dirHeader := mp.buf.hiDir
    raw := mp.buf.hiRaw
    entAt := fun o => mp.buf.ents (mp.blockSizeBytes + o) }

/-- Modelled from the spec (§4.1): `lxfsReadBlock` into the lower half of
`mp->dataBuffer`. -/
def lxfsReadBlockLow (mp : Mountpoint) (b : Nat) : Bool × Mountpoint :=
  match ioStep mp with
  | (true, mp1) => (true, mp1)
  | (false, mp1) => (false, loadLow mp1 (mp1.disk b))

/-- Modelled from the spec (§4.1): `lxfsReadBlock` into the upper half of
`mp->dataBuffer` (`mp->dataBuffer + mp->blockSizeBytes`). -/
def lxfsReadBlockHigh (mp : Mountpoint) (b : Nat) : Bool × Mountpoint :=
  match ioStep mp with
  | (true, mp1) => (true, mp1)
  | (false, mp1) => (false, loadHigh mp1 (mp1.disk b))

/-- Modelled from the spec (§4.1): `lxfsWriteBlock` from the lower half of
`mp->dataBuffer`. -/
def lxfsWriteBlockLow (mp : Mountpoint) (b : Nat) : Bool × Mountpoint :=
  match ioStep mp with
  | (true, mp1) => (true, mp1)
  | (false, mp1) => (false, { mp1 with disk := fun x => if x = b then lowProj mp1 else mp1.disk x })

/-- Modelled from the spec (§4.1): `lxfsWriteBlock` from the upper half of
`mp->dataBuffer`. -/
def lxfsWriteBlockHigh (mp : Mountpoint) (b : Nat) : Bool × Mountpoint :=
  match ioStep mp with
  | (true, mp1) => (true, mp1)
  | (false, mp1) => (false, { mp1 with disk := fun x => if x = b then highProj mp1 else mp1.disk x })

/-- Modelled from the spec (§4.1): `lxfsReadNextBlock` reads a block's data
into the lower half of `mp->dataBuffer` and returns the block's chain-map
value; returns 0 on I/O failure (create.c tests `!block`). -/
def lxfsReadNextBlock (mp : Mountpoint) (b : Nat) : Nat × Mountpoint :=
  match ioStep mp with
  | (true, mp1) => (0, mp1)
  | (false, mp1) => (mp1.chain b, loadLow mp1 (mp1.disk b))

/-- Modelled from the spec (§4.1): `lxfsFlushBlock` forces a block to durable
storage; it does not change the state visible to this model and its result
is ignored by both C files. -/
def lxfsFlushBlock (mp : Mountpoint) (_b : Nat) : Mountpoint := mp

def zeroFileHeader : LXFSFileHeader := { refCount := 0, size := 0 }

def zeroDirHeader : LXFSDirectoryHeader :=
  { createTime := 0, accessTime := 0, modTime := 0, sizeBytes := 0, sizeEntries := 0, reserved := 0 }

def zeroEntry : LXFSDirectoryEntry :=
  { flags := 0, owner := 0, group := 0, permissions := 0, size := 0, createTime := 0
    accessTime := 0, modTime := 0, block := 0, entrySize := 0, reserved := 0, name := [] }

/-- The `memset(mp->dataBuffer, 0, mp->blockSizeBytes)` of create.c line 115. -/
def memsetLow (mp : Mountpoint) : Mountpoint :=
  { mp with buf := { mp.buf with
      loFile := zeroFileHeader
      loDir := zeroDirHeader
      loRaw := []
      ents := fun o => if o < mp.blockSizeBytes then zeroEntry else mp.buf.ents o } }

/-- The `memset(mp->dataBuffer + mp->blockSizeBytes, 0, mp->blockSizeBytes)`
of create.c line 196. -/
def memsetHigh (mp : Mountpoint) : Mountpoint :=
  { mp with buf := { mp.buf with
      hiFile := zeroFileHeader
      hiDir := zeroDirHeader
      hiRaw := []
      ents := fun o => if mp.blockSizeBytes ≤ o then zeroEntry else mp.buf.ents o } }

/-- The `memcpy(mp->dataBuffer + mp->blockSizeBytes, mp->dataBuffer,
mp->blockSizeBytes)` of create.c line 229: the lower buffer half is copied
onto the upper half. -/
def copyLowToHigh (mp : Mountpoint) : Mountpoint :=
  { mp with buf := { mp.buf with
      hiFile := mp.buf.loFile
      hiDir := mp.buf.loDir
      hiRaw := mp.buf.loRaw
      ents := fun o => if mp.blockSizeBytes ≤ o then mp.buf.ents (o - mp.blockSizeBytes) else mp.buf.ents o } }

/-- The `memcpy(dir, dest, dest->entrySize)` of create.c lines 180 and 197:
the candidate entry is written into the buffer at the scan position. -/
def writeEntryAt (mp : Mountpoint) (off : Nat) (e : LXFSDirectoryEntry) : Mountpoint :=
  { mp with buf := { mp.buf with ents := fun o => if o = off then e else mp.buf.ents o } }

/-- The slot-reuse test of create.c lines 171 and 177, translated with C
operator precedence preserved: `!dir->flags & LXFS_DIR_VALID &&
(!dir->entrySize || (dir->entrySize >= dest->entrySize))` parses as
`((!dir->flags) & LXFS_DIR_VALID) && ...`, so the logical negation applies
to the whole flags word before the bitwise and with `LXFS_DIR_VALID`. -/
def lxfsFreeFits (d : LXFSDirectoryEntry) (destSize : Nat) : Bool :=
  ((if d.flags = 0 then 1 else 0) &&& LXFS_DIR_VALID != 0)
    && (d.entrySize == 0 || destSize ≤ d.entrySize)

/-- The inner scan of create.c lines 170-175: walk the packed entries of the
staged block while the cumulative offset stays below the block size, stopping
early at a slot passing `lxfsFreeFits`.  Returns the final `(offset, dir)`
pair (`dir` as a byte offset into the two-block buffer); `none` models the
C loop running forever (a non-fitting entry of stored size 0). -/
def lxfsScanStep (bs destSize : Nat) (ents : Nat → LXFSDirectoryEntry) :
    Nat → Nat → Nat → Option (Nat × Nat)
  | 0, _, _ => none
  | fuel + 1, off, dirOff =>
    if off < bs then
      if lxfsFreeFits (ents dirOff) destSize then some (off, dirOff)
      else lxfsScanStep bs destSize ents fuel (off + (ents dirOff).entrySize)
        (dirOff + (ents dirOff).entrySize)
    else some (off, dirOff)

/-- The post-insertion accounting of create.c lines 207-219: re-read the
parent directory's first block, and if that read fails return success (0)
anyway; otherwise bump the directory header's byte size and entry count,
refresh its access/modify timestamps, write it back and flush. -/
def lxfsFinishInsert (dest : LXFSDirectoryEntry) (parentBlock timestamp : Nat)
    (mp : Mountpoint) : Option (Int × Mountpoint) :=
  match lxfsReadBlockLow mp parentBlock with
  | (true, mp1) => some (0, mp1)
  | (false, mp1) =>
    let mp2 : Mountpoint := { mp1 with buf := { mp1.buf with loDir := { mp1.buf.loDir with
        sizeBytes := mp1.buf.loDir.sizeBytes + dest.entrySize
        sizeEntries := mp1.buf.loDir.sizeEntries + 1
        accessTime := timestamp
        modTime := timestamp } } }
    let w := lxfsWriteBlockLow mp2 parentBlock
    some (0, lxfsFlushBlock w.2 parentBlock)

/-- The insertion loop of create.c lines 162-231: walk the parent's block
chain, stage each block (and its successor) in the two-block buffer, scan
for a reusable slot, and insert in place or across the block boundary.
`blk` is the loop's `block` variable at the top of an iteration, `off` and
`dirOff` mirror `offset` and `dir - mp->dataBuffer`.  `none` models fuel
exhaustion (the C looping forever). -/
def lxfsInsertLoop (dest : LXFSDirectoryEntry) (hardLink parentBlock timestamp : Nat) :
    Nat → Mountpoint → Nat → Nat → Nat → Option (Int × Mountpoint)
  | 0, _, _, _, _ => none
  | fuel + 1, mp, blk, off, dirOff =>
    let r := lxfsReadNextBlock mp blk
    if r.1 = 0 then some (-EIOERR, r.2) else
    let mp1 := if r.1 ≠ LXFS_BLOCK_EOF then (lxfsReadBlockHigh r.2 r.1).2 else r.2
    match lxfsScanStep mp1.blockSizeBytes dest.entrySize mp1.buf.ents (fuel + 1) off dirOff with
    | none => none
    | some (off1, dirOff1) =>
      if lxfsFreeFits (mp1.buf.ents dirOff1) dest.entrySize then
        if off1 + dest.entrySize ≤ mp1.blockSizeBytes then
          let w := lxfsWriteBlockLow (writeEntryAt mp1 dirOff1 dest) blk
          if w.1 then
            let mp2 := if hardLink = 0 then (lxfsSetNextBlock w.2 dest.block LXFS_BLOCK_FREE).2 else w.2
            some (-EIOERR, mp2)
          else lxfsFinishInsert dest parentBlock timestamp (lxfsFlushBlock w.2 blk)
        else
          let nb := lxfsFindFreeBlock mp1 0
          if nb = 0 then some (-ENOSPC, mp1) else
          let s1 := lxfsSetNextBlock mp1 blk nb
          if s1.1 then some (-EIOERR, s1.2) else
          let s2 := lxfsSetNextBlock s1.2 nb LXFS_BLOCK_EOF
          if s2.1 then some (-EIOERR, (lxfsSetNextBlock s2.2 blk LXFS_BLOCK_EOF).2) else
          let mp2 := writeEntryAt (memsetHigh s2.2) dirOff1 dest
          let w1 := lxfsWriteBlockLow mp2 blk
          if w1.1 then some (-EIOERR, w1.2) else
          let w2 := lxfsWriteBlockHigh w1.2 nb
          if w2.1 then some (-EIOERR, w2.2) else
          lxfsFinishInsert dest parentBlock timestamp
            (lxfsFlushBlock (lxfsFlushBlock w2.2 blk) nb)
      else
        if r.1 = LXFS_BLOCK_EOF then some (-ENOSYS, mp1)
        else lxfsInsertLoop dest hardLink parentBlock timestamp fuel
          (copyLowToHigh mp1) r.1 (off1 - mp1.blockSizeBytes) dirOff1

/-- The permission-bit translation of create.c lines 88-96: each requested
POSIX mode bit is or-ed into the entry's permissions word. -/
def lxfsPermTranslate (mode : Nat) : Nat :=
  (if mode &&& S_IRUSR ≠ 0 then LXFS_PERMS_OWNER_R else 0)
  ||| (if mode &&& S_IWUSR ≠ 0 then LXFS_PERMS_OWNER_W else 0)
  ||| (if mode &&& S_IXUSR ≠ 0 then LXFS_PERMS_OWNER_X else 0)
  ||| (if mode &&& S_IRGRP ≠ 0 then LXFS_PERMS_GROUP_R else 0)
  ||| (if mode &&& S_IWGRP ≠ 0 then LXFS_PERMS_GROUP_W else 0)
  ||| (if mode &&& S_IXGRP ≠ 0 then LXFS_PERMS_GROUP_X else 0)
  ||| (if mode &&& S_IROTH ≠ 0 then LXFS_PERMS_OTHER_R else 0)
  ||| (if mode &&& S_IWOTH ≠ 0 then LXFS_PERMS_OTHER_W else 0)
  ||| (if mode &&& S_IXOTH ≠ 0 then LXFS_PERMS_OTHER_X else 0)

/-- The type-tag selection of create.c lines 83-86: hard-link mode overrides,
then regular file, soft link, directory; any other mode leaves no type bits. -/
def lxfsTypeOfMode (hardLink mode : Nat) : Nat :=
  if hardLink ≠ 0 then LXFS_DIR_TYPE_HARD_LINK <<< LXFS_DIR_TYPE_SHIFT
  else if S_ISREG mode then LXFS_DIR_TYPE_FILE <<< LXFS_DIR_TYPE_SHIFT
  else if S_ISLNK mode then LXFS_DIR_TYPE_SOFT_LINK <<< LXFS_DIR_TYPE_SHIFT
  else if S_ISDIR mode then LXFS_DIR_TYPE_DIR <<< LXFS_DIR_TYPE_SHIFT
  else 0

/-- The entry-template population of create.c lines 81-107.  Note that the
flags word is assigned (line 82) while the permissions word is only or-ed
into whatever the caller's template already held (lines 88-96 use `|=`
without clearing the field first). -/
def lxfsFillEntry (dest0 : LXFSDirectoryEntry) (nm : List Nat)
    (mode uid gid timestamp hardLink : Nat) : LXFSDirectoryEntry :=
  { dest0 with
    name := nm
    entrySize := LXFS_DIRENT_STRUCT_SIZE + nm.length - 511
    flags := LXFS_DIR_VALID ||| lxfsTypeOfMode hardLink mode
    permissions := dest0.permissions ||| lxfsPermTranslate mode
    size := 0
    owner := uid
    group := gid
    accessTime := timestamp
    createTime := timestamp
    modTime := timestamp
    reserved := 0 }

/-- The parent-write-permission check of create.c lines 73-79: exactly one
permission class is consulted, chosen by owner, then group, then other. -/
def lxfsCreateWritePermOk (parent : LXFSDirectoryEntry) (uid gid : Nat) : Bool :=
  if uid = parent.owner then (parent.permissions &&& LXFS_PERMS_OWNER_W) != 0
  else if gid = parent.group then (parent.permissions &&& LXFS_PERMS_GROUP_W) != 0
  else (parent.permissions &&& LXFS_PERMS_OTHER_W) != 0

/-- The object-storage allocation phase of create.c lines 109-152 followed by
the insertion loop: allocate and initialize the new object's first block (or,
in hard-link mode, bump the target's reference count), then insert the entry
into the parent directory. -/
def lxfsCreateAlloc (env : Env) (fuel : Nat) (dest : LXFSDirectoryEntry)
    (parent : LXFSDirectoryEntry) (mp : Mountpoint) (mode hardLink : Nat)
    (symlink : List Nat) : Option (Int × Mountpoint × LXFSDirectoryEntry) :=
  if hardLink = 0 then
    let nb := lxfsFindFreeBlock mp 0
    if nb = 0 then some (-ENOSPC, mp, { dest with block := nb }) else
    let dest1 : LXFSDirectoryEntry := { dest with block := nb }
    let s := lxfsSetNextBlock mp nb LXFS_BLOCK_EOF
    if s.1 then some (-EIOERR, s.2, dest1) else
    let mpA := memsetLow s.2
    if S_ISREG mode then
      let mpB : Mountpoint := { mpA with buf := { mpA.buf with loFile := { refCount := 1, size := 0 } } }
      let w := lxfsWriteBlockLow mpB nb
      if w.1 then some (-EIOERR, (lxfsSetNextBlock w.2 nb LXFS_BLOCK_FREE).2, dest1) else
      match lxfsInsertLoop dest1 hardLink parent.block env.now fuel
          (lxfsFlushBlock w.2 nb) parent.block LXFS_DIRHDR_SIZE LXFS_DIRHDR_SIZE with
      | none => none
      | some (st, mp2) => some (st, mp2, dest1)
    else if S_ISDIR mode then
      let mpB : Mountpoint := { mpA with buf := { mpA.buf with loDir :=
        { createTime := env.now, accessTime := env.now, modTime := env.now
          sizeBytes := LXFS_DIRHDR_SIZE, sizeEntries := 0, reserved := 0 } } }
      let w := lxfsWriteBlockLow mpB nb
      if w.1 then some (-EIOERR, (lxfsSetNextBlock w.2 nb LXFS_BLOCK_FREE).2, dest1) else
      match lxfsInsertLoop dest1 hardLink parent.block env.now fuel
          (lxfsFlushBlock w.2 nb) parent.block LXFS_DIRHDR_SIZE LXFS_DIRHDR_SIZE with
      | none => none
      | some (st, mp2) => some (st, mp2, dest1)
    else if S_ISLNK mode then
      let mpB : Mountpoint := { mpA with buf := { mpA.buf with loRaw := symlink } }
      let w := lxfsWriteBlockLow mpB nb
      if w.1 then some (-EIOERR, (lxfsSetNextBlock w.2 nb LXFS_BLOCK_FREE).2, dest1) else
      let dest2 : LXFSDirectoryEntry := { dest1 with size := symlink.length }
      match lxfsInsertLoop dest2 hardLink parent.block env.now fuel
          (lxfsFlushBlock w.2 nb) parent.block LXFS_DIRHDR_SIZE LXFS_DIRHDR_SIZE with
      | none => none
      | some (st, mp2) => some (st, mp2, dest2)
    else
      match lxfsInsertLoop dest1 hardLink parent.block env.now fuel
          (lxfsFlushBlock mpA nb) parent.block LXFS_DIRHDR_SIZE LXFS_DIRHDR_SIZE with
      | none => none
      | some (st, mp2) => some (st, mp2, dest1)
  else
    let r := lxfsReadBlockLow mp dest.block
    if r.1 then some (-EIOERR, r.2, dest) else
    let mp1 := r.2
    let mp2 : Mountpoint := { mp1 with buf := { mp1.buf with loFile :=
      { mp1.buf.loFile with refCount := mp1.buf.loFile.refCount + 1 } } }
    let dest1 : LXFSDirectoryEntry := { dest with size := mp2.buf.loFile.size }
    let w := lxfsWriteBlockLow mp2 dest.block
    if w.1 then some (-EIOERR, w.2, dest1) else
    match lxfsInsertLoop dest1 hardLink parent.block env.now fuel
        (lxfsFlushBlock w.2 dest.block) parent.block LXFS_DIRHDR_SIZE LXFS_DIRHDR_SIZE with
    | none => none
    | some (st, mp2) => some (st, mp2, dest1)

/-- Second stage of `lxfsCreate` after the parent has been resolved:
create.c lines 65-107 (name extraction, parent-type and permission checks,
entry population) followed by the allocation and insertion phases. -/
def lxfsCreateStage2 (env : Env) (fuel : Nat) (dest0 parent : LXFSDirectoryEntry)
    (mp : Mountpoint) (path : List Nat) (mode uid gid : Nat) (symlink : List Nat)
    (hardLink : Nat) : Option (Int × Mountpoint × LXFSDirectoryEntry) :=
  match env.pathComponent path (env.pathDepth path - 1) with
  | none => some (-ENOENT, mp, dest0)
  | some nm =>
    let dest1 : LXFSDirectoryEntry := { dest0 with name := nm }
    if ((parent.flags >>> LXFS_DIR_TYPE_SHIFT) &&& LXFS_DIR_TYPE_MASK) ≠ LXFS_DIR_TYPE_DIR then
      some (-ENOTDIR, mp, dest1)
    else if ¬ lxfsCreateWritePermOk parent uid gid then
      some (-EACCES, mp, dest1)
    else
      lxfsCreateAlloc env fuel (lxfsFillEntry dest1 nm mode uid gid env.now hardLink)
        parent mp mode hardLink symlink

/-- The create engine `lxfsCreate` of create.c: a non-zero block field in the
destination template requests hard-link creation; the variadic symlink
target is passed explicitly (taken only when `S_ISLNK(mode)`). -/
def lxfsCreate (env : Env) (fuel : Nat) (dest0 : LXFSDirectoryEntry) (mp : Mountpoint)
    (path : List Nat) (mode uid gid : Nat) (symlink : List Nat) :
    Option (Int × Mountpoint × LXFSDirectoryEntry) :=
  let hardLink := dest0.block
  if env.pathDepth path ≤ 1 then
    match env.find [47] with
    | none => some (-EIOERR, mp, dest0)
    | some parent => lxfsCreateStage2 env fuel dest0 parent mp path mode uid gid symlink hardLink
  else
    match env.parentPathOf path with
    | none => some (-ENOENT, mp, dest0)
    | some pp =>
      match env.find pp with
      | none => some (-ENOENT, mp, dest0)
      | some parent => lxfsCreateStage2 env fuel dest0 parent mp path mode uid gid symlink hardLink

/-- The truncation loop of open.c lines 95-113: walk from the entry's first
block; the first block's chain entry is set to `EOF` and later visited blocks
would be set to 0 (`FREE`); after each store the loop re-reads the chain entry
of the block it just updated to find the next block.  Returns true on I/O
failure.  `none` models fuel exhaustion. -/
def lxfsTruncLoop (entryBlock : Nat) : Nat → Mountpoint → Nat → Option (Bool × Mountpoint)
  | 0, _, _ => none
  | fuel + 1, mp, next =>
    if next = LXFS_BLOCK_EOF then some (false, mp)
    else
      let s := if next = entryBlock then lxfsSetNextBlock mp next LXFS_BLOCK_EOF
               else lxfsSetNextBlock mp next 0
      if s.1 then some (true, s.2)
      else
        let r := lxfsNextBlock s.2 next
        if r.1 = 0 then some (true, r.2)
        else lxfsTruncLoop entryBlock fuel r.2 r.1

/-- The `O_TRUNC` branch of open.c lines 80-114: read the entry's first block
into `mp->meta`, zero the file header's size field there, write the block
back, then run the chain-release loop.  Returns the error status to reply
with, or the post-truncation state.  The loop fuel `nBlocks + 2` is never
the limiting factor: because the loop re-reads the chain entry it has just
overwritten, it always terminates within two iterations (see the C1
theorems), so any fuel of at least 3 gives the exact behaviour of the C. -/
def lxfsOpenTrunc (mp : Mountpoint) (entryBlock : Nat) :
    Option (Except (Int × Mountpoint) Mountpoint) :=
  let r := lxfsReadBlockMeta mp entryBlock
  if r.1 then some (Except.error (-EIOERR, r.2)) else
  let mp1 : Mountpoint := { r.2 with meta := { r.2.meta with fileHeader := { r.2.meta.fileHeader with size := 0 } } }
  let w := lxfsWriteBlockMeta mp1 entryBlock
  if w.1 then some (Except.error (-EIOERR, w.2)) else
  match lxfsTruncLoop entryBlock (w.2.nBlocks + 2) w.2 entryBlock with
  | none => none
  | some (true, mp2) => some (Except.error (-EIOERR, mp2))
  | some (false, mp2) => some (Except.ok mp2)

/-- The access check of open.c lines 139-149 for regular files and hard
links: exactly one permission class is consulted, chosen by owner, then
group, then other; within the class the read bit is required when read
access is requested and the write bit when write access is requested. -/
def lxfsOpenAccessStatus (e : LXFSDirectoryEntry) (flags uid gid : Nat) : Int :=
  if uid = e.owner then
    if ((flags &&& O_RDONLY) != 0 && (e.permissions &&& LXFS_PERMS_OWNER_R) == 0)
        || ((flags &&& O_WRONLY) != 0 && (e.permissions &&& LXFS_PERMS_OWNER_W) == 0)
      then -EACCES else 0
  else if gid = e.group then
    if ((flags &&& O_RDONLY) != 0 && (e.permissions &&& LXFS_PERMS_GROUP_R) == 0)
        || ((flags &&& O_WRONLY) != 0 && (e.permissions &&& LXFS_PERMS_GROUP_W) == 0)
      then -EACCES else 0
  else
    if ((flags &&& O_RDONLY) != 0 && (e.permissions &&& LXFS_PERMS_OTHER_R) == 0)
        || ((flags &&& O_WRONLY) != 0 && (e.permissions &&& LXFS_PERMS_OTHER_W) == 0)
      then -EACCES else 0

/-- The mode derivation of the creation branch of open.c lines 39-40:
`mode = (ocmd->mode & ~ocmd->umask) | S_IFREG`. -/
def lxfsOpenDerivedMode (mode umask : Nat) : Nat :=
  Nat.ldiff mode umask ||| S_IFREG

/-- The self-consistency check of open.c lines 42-46 on the derived mode:
the status becomes `-EACCES` when read access is requested without the
owner-read bit or write access without the owner-write bit. -/
def lxfsOpenCreateCheckStatus (flags mode : Nat) : Int :=
  if ((flags &&& O_RDONLY) != 0 && (mode &&& S_IRUSR) == 0)
      || ((flags &&& O_WRONLY) != 0 && (mode &&& S_IWUSR) == 0)
    then -EACCES else 0

/-- The open engine `lxfsOpen` of open.c: resolve the path, create on
`O_CREAT` when absent, reject directories, reject `O_CREAT|O_EXCL` on an
existing file, truncate on `O_TRUNC`, redirect (recursively, with no depth
limit — hence the fuel) through soft links, and finally check access
permissions.  The result is the status replied to the caller and the final
volume state; `none` models fuel exhaustion of the unbounded recursion. -/
def lxfsOpen (env : Env) : Nat → Mountpoint → OpenCommand → Option (Int × Mountpoint)
  | 0, _, _ => none
  | fuel + 1, mp, cmd =>
    match env.find cmd.path with
    | none =>
      if cmd.flags &&& O_CREAT ≠ 0 then
        let mode := lxfsOpenDerivedMode cmd.mode cmd.umask
        let st := lxfsOpenCreateCheckStatus cmd.flags mode
        if st ≠ 0 then some (st, mp)
        else
          match lxfsCreate env (fuel + 1) { env.stackEntry with block := 0 } mp cmd.path
              mode cmd.uid cmd.gid [] with
          | none => none
          | some (st2, mp2, _) => some (st2, mp2)
      else some (-ENOENT, mp)
    | some entry =>
      let ty := (entry.flags >>> LXFS_DIR_TYPE_SHIFT) &&& LXFS_DIR_TYPE_MASK
      if ty = LXFS_DIR_TYPE_DIR then some (-EISDIR, mp)
      else if cmd.flags &&& O_CREAT ≠ 0 ∧ cmd.flags &&& O_EXCL ≠ 0 then some (-EEXIST, mp)
      else
        match (if cmd.flags &&& O_TRUNC ≠ 0 then lxfsOpenTrunc mp entry.block
               else some (Except.ok mp)) with
        | none => none
        | some (Except.error e) => some (e.1, e.2)
        | some (Except.ok mpT) =>
          if ty = LXFS_DIR_TYPE_SOFT_LINK then
            let r := lxfsReadBlockMeta mpT entry.block
            if r.1 then some (-EIOERR, r.2) else
            let mpM := r.2
            let p0 := mpM.meta.raw.take entry.size
            let p1 := if p0.headD 0 = 47 then p0.drop 1 else p0
            lxfsOpen env fuel mpM { cmd with path := p1, abspath := 47 :: p1 }
          else
            some (lxfsOpenAccessStatus entry cmd.flags cmd.uid cmd.gid, mpT)

/-- A blank block: every record view parses as zeroes. -/
def bd0 : BlockData :=
  { fileHeader := zeroFileHeader, dirHeader := zeroDirHeader, raw := [], entAt := fun _ => zeroEntry }

/-- A zeroed two-block scratch buffer. -/
def buf0 : Buffer2 :=
  { loFile := zeroFileHeader, loDir := zeroDirHeader, loRaw := []
    hiFile := zeroFileHeader, hiDir := zeroDirHeader, hiRaw := []
    ents := fun _ => zeroEntry }

/-- Sample volume for the truncation scenario: a regular file `/a` whose
chain is 2 → 5 → 7 → EOF; every other block is in use (`EOF`). -/
def c1entry : LXFSDirectoryEntry :=
  { zeroEntry with flags := 1, block := 2, permissions := 75, owner := 1, group := 1, size := 1000 }

def c1mp : Mountpoint :=
  { blockSizeBytes := 512, nBlocks := 8
    chain := fun b => if b = 2 then 5 else if b = 5 then 7 else LXFS_BLOCK_EOF
    disk := fun b => if b = 2 then { bd0 with fileHeader := { refCount := 1, size := 1000 } } else bd0
    meta := bd0, buf := buf0, ioFail := fun _ => false, ioCount := 0 }

def c1env : Env :=
  { now := 0
    find := fun p => if p = [47, 97] then some c1entry else none
    pathDepth := fun _ => 2
    parentPathOf := fun _ => none
    pathComponent := fun _ _ => none
    stackEntry := zeroEntry }

/-- Open `/a` with `O_RDONLY | O_TRUNC` as the file's owner. -/
def c1cmd : OpenCommand :=
  { path := [47, 97], abspath := [47, 97], flags := 17, mode := 0, umask := 0, uid := 1, gid := 1 }

def c1run : Option (Int × Mountpoint) := lxfsOpen c1env 4 c1mp c1cmd

set_option maxHeartbeats 1000000 in
/-- Truncating open of a regular file with every I/O succeeding: the file
header's size is zeroed and the first block's chain entry becomes `EOF`, but
every OTHER block's chain entry — including the previously-chained blocks
b1..bn — is left exactly as it was: open.c's release loop re-reads the chain
entry of the block it has just set to `EOF` (line 107) and therefore
terminates after the first block, leaking the rest of the chain (the
`lxfsSetNextBlock(next, 0)` else-branch at line 99 is unreachable). -/
theorem c1aux_trunc_run (env : Env) (f : Nat) (mp : Mountpoint) (cmd : OpenCommand)
    (L : LXFSDirectoryEntry)
    (hfind : env.find cmd.path = some L)
    (hty : (L.flags >>> LXFS_DIR_TYPE_SHIFT) &&& LXFS_DIR_TYPE_MASK = LXFS_DIR_TYPE_FILE)
    (htr : cmd.flags &&& O_TRUNC ≠ 0)
    (hexcl : ¬(cmd.flags &&& O_CREAT ≠ 0 ∧ cmd.flags &&& O_EXCL ≠ 0))
    (hio : ∀ k, mp.ioFail k = false)
    (hblk : L.block ≠ LXFS_BLOCK_EOF) :
    ∃ mpT, lxfsOpen env (f + 1) mp cmd
        = some (lxfsOpenAccessStatus L cmd.flags cmd.uid cmd.gid, mpT)
      ∧ mpT.chain L.block = LXFS_BLOCK_EOF
      ∧ (∀ b, b ≠ L.block → mpT.chain b = mp.chain b)
      ∧ (mpT.disk L.block).fileHeader.size = 0
      ∧ (∀ b, b ≠ L.block → mpT.disk b = mp.disk b) := by
  have htyne1 : LXFS_DIR_TYPE_FILE ≠ LXFS_DIR_TYPE_DIR := by decide
  have htyne2 : LXFS_DIR_TYPE_FILE ≠ LXFS_DIR_TYPE_SOFT_LINK := by decide
  have hEOFne : LXFS_BLOCK_EOF ≠ 0 := by decide
  simp only [lxfsOpen, hfind, hty, htyne1, htyne2, htr, hexcl, lxfsOpenTrunc, lxfsTruncLoop,
    lxfsReadBlockMeta, lxfsWriteBlockMeta, lxfsSetNextBlock, lxfsNextBlock, ioStep, hio,
    hblk, hEOFne, ne_eq, not_true, ite_true, ite_false, not_false_eq_true, if_true,
    if_false, reduceIte, Bool.false_eq_true, Bool.true_eq_false, if_neg, if_pos]
  refine ⟨_, rfl, ?_, ?_, ?_, ?_⟩
  · simp
  · intro b hb
    simp [hb]
  · simp
  · intro b hb
    simp [hb]

/-- C1: truncation does NOT mark the previously-chained blocks b1..bn
`FREE`.  Universal conjunct: for every truncating open of a regular file
with all I/O succeeding, only the first block's chain entry changes (to
`EOF`) — every other chain entry, in particular those of b1..bn, is left
unchanged, because open.c's release loop re-reads the chain entry it has
just overwritten and stops after the first block.  Concrete conjunct: on
the file `/a` with chain 2 → 5 → 7 → EOF the open succeeds with size 0 and
block 2 at `EOF`, but block 5 still points at 7 and block 7 is still `EOF`,
neither `FREE` as the claim (and spec §8) requires. -/
theorem c1_trunc_leaves_chain_blocks_allocated :
    (∀ (env : Env) (f : Nat) (mp : Mountpoint) (cmd : OpenCommand)
      (L : LXFSDirectoryEntry),
      env.find cmd.path = some L →
      (L.flags >>> LXFS_DIR_TYPE_SHIFT) &&& LXFS_DIR_TYPE_MASK = LXFS_DIR_TYPE_FILE →
      cmd.flags &&& O_TRUNC ≠ 0 →
      ¬(cmd.flags &&& O_CREAT ≠ 0 ∧ cmd.flags &&& O_EXCL ≠ 0) →
      (∀ k, mp.ioFail k = false) →
      L.block ≠ LXFS_BLOCK_EOF →
      ∃ mpT, lxfsOpen env (f + 1) mp cmd
          = some (lxfsOpenAccessStatus L cmd.flags cmd.uid cmd.gid, mpT)
        ∧ mpT.chain L.block = LXFS_BLOCK_EOF
        ∧ (∀ b, b ≠ L.block → mpT.chain b = mp.chain b)
        ∧ (mpT.disk L.block).fileHeader.size = 0
        ∧ (∀ b, b ≠ L.block → mpT.disk b = mp.disk b))
    ∧ (c1run.map fun r => (r.1, r.2.chain 2, r.2.chain 5, r.2.chain 7,
          (r.2.disk 2).fileHeader.size))
        = some (0, LXFS_BLOCK_EOF, 7, LXFS_BLOCK_EOF, 0)
    ∧ 7 ≠ LXFS_BLOCK_FREE ∧ (5 : Nat) ≠ LXFS_BLOCK_FREE := by
  refine ⟨?_, by decide, by decide, by decide⟩
  intro env f mp cmd L hfind hty htr hexcl hio hblk
  exact c1aux_trunc_run env f mp cmd L hfind hty htr hexcl hio hblk

/-- Witness for the truncation-leak theorem: instantiating its universal
conjunct at the chain 2 → 5 → 7 → EOF volume. -/
theorem c1_trunc_leaves_chain_blocks_allocated_witness :
    ∃ mpT, lxfsOpen c1env 4 c1mp c1cmd
        = some (lxfsOpenAccessStatus c1entry c1cmd.flags c1cmd.uid c1cmd.gid, mpT)
      ∧ mpT.chain 2 = LXFS_BLOCK_EOF
      ∧ (∀ b, b ≠ 2 → mpT.chain b = c1mp.chain b)
      ∧ (mpT.disk 2).fileHeader.size = 0
      ∧ (∀ b, b ≠ 2 → mpT.disk b = c1mp.disk b) :=
  c1_trunc_leaves_chain_blocks_allocated.1 c1env 3 c1mp c1cmd c1entry rfl (by decide)
    (by decide) (by decide) (fun _ => rfl) (by decide)

/-- Sample volume for the slot-reuse scenario: parent directory `/d` at
block 2 whose packed entry list holds, right after the directory header
(offset 48), a slot with validity flag clear but stale type bits set
(flags = 2) and stored size 100, followed at offset 148 by virgin space. -/
def c2slotA : LXFSDirectoryEntry := { zeroEntry with flags := 2, entrySize := 100 }

def c2parent : LXFSDirectoryEntry :=
  { zeroEntry with flags := 3, block := 2, permissions := 2, owner := 1, group := 1 }

def c2mp : Mountpoint :=
  { blockSizeBytes := 512, nBlocks := 8
    chain := fun b => if b = 3 then 0 else LXFS_BLOCK_EOF
    disk := fun b => if b = 2 then { bd0 with entAt := fun o => if o = 48 then c2slotA else zeroEntry } else bd0
    meta := bd0, buf := buf0, ioFail := fun _ => false, ioCount := 0 }

def c2env : Env :=
  { now := 7000
    find := fun p => if p = [47, 100] then some c2parent else none
    pathDepth := fun _ => 2
    parentPathOf := fun p => if p = [47, 100, 47, 98] then some [47, 100] else none
    pathComponent := fun p i => if p = [47, 100, 47, 98] ∧ i = 1 then some [98] else none
    stackEntry := zeroEntry }

/-- Create the regular file `/d/b` (mode 0644, entrySize 18) in that parent. -/
def c2run : Option (Int × Mountpoint × LXFSDirectoryEntry) :=
  lxfsCreate c2env 6 zeroEntry c2mp [47, 100, 47, 98] 33188 1 1 []

/-- C2: the slot at offset 48 has its validity flag clear (flags = 2, so
`flags &&& LXFS_DIR_VALID = 0`) and stored size 100 ≥ 18, so under the
claim's predicate it is the first qualifying slot and the new entry should
be written there.  The creation succeeds, but the code skips that slot and
writes the entry into the virgin slot at offset 148, leaving offset 48
untouched: create.c's test `!dir->flags & LXFS_DIR_VALID` parses as
`(!dir->flags) & LXFS_DIR_VALID`, which accepts a slot only when its whole
flags word is zero (the universal conjunct: every slot with a nonzero flags
word fails the code's test, whatever its stored size).  The claim's "a slot
whose validity flag is clear but whose other flag bits are set still
qualifies" is exactly what the code fails to implement. -/
theorem c2_free_slot_with_stale_flag_bits_skipped :
    (∀ (e : LXFSDirectoryEntry) (dsize : Nat), e.flags ≠ 0 → lxfsFreeFits e dsize = false)
    ∧ c2slotA.flags &&& LXFS_DIR_VALID = 0
    ∧ (18 : Nat) ≤ c2slotA.entrySize
    ∧ (c2run.map fun r => (r.1, ((r.2.1.disk 2).entAt 48).flags,
          ((r.2.1.disk 2).entAt 48).entrySize, ((r.2.1.disk 2).entAt 148).flags,
          ((r.2.1.disk 2).entAt 148).entrySize, r.2.2.entrySize))
        = some (0, 2, 100, 1, 18, 18)
    ∧ lxfsFreeFits c2slotA 18 = false := by
  refine ⟨?_, by decide, by decide, by decide, by decide⟩
  intro e dsize h
  unfold lxfsFreeFits
  rw [if_neg h]
  simp

/-- Witness for the slot-reuse theorem: instantiating its universal conjunct
at the stale-flag slot shows the code's test rejects any slot whose flags
word is nonzero, no matter its stored size. -/
theorem c2_free_slot_with_stale_flag_bits_skipped_witness :
    lxfsFreeFits c2slotA 18 = false :=
  c2_free_slot_with_stale_flag_bits_skipped.1 c2slotA 18 (by decide)

/-- A block returned by the free-block search (when nonzero) is `FREE` in the
chain map. -/
theorem lxfsFindFreeBlock_free (mp : Mountpoint) (hint nb : Nat)
    (h : lxfsFindFreeBlock mp hint = nb) (hnb : nb ≠ 0) :
    mp.chain nb = LXFS_BLOCK_FREE := by
  unfold lxfsFindFreeBlock at h
  cases hfind : (List.range mp.nBlocks).find?
      (fun i => decide (hint ≤ i) && decide (1 ≤ i) && decide (mp.chain i = LXFS_BLOCK_FREE)) with
  | none => rw [hfind] at h; exact absurd h.symm hnb
  | some i =>
    rw [hfind] at h
    have hp := List.find?_some hfind
    simp only [Bool.and_eq_true, decide_eq_true_eq] at hp
    rw [← h]
    exact hp.2

/-- Rollback of the freshly allocated object block when the write of the new
object's first block (here a regular file's header block) fails: the
chain-map entry of the new block is set back to `FREE` and `-EIO` returned
(create.c lines 121-124). -/
theorem c3aux_object_write_rollback (env : Env) (f : Nat) (dest0 : LXFSDirectoryEntry)
    (mp : Mountpoint) (path : List Nat) (mode uid gid : Nat) (symlink nm : List Nat)
    (parent : LXFSDirectoryEntry) (nb : Nat)
    (hhl : dest0.block = 0)
    (hd : env.pathDepth path ≤ 1)
    (hf : env.find [47] = some parent)
    (hnm : env.pathComponent path (env.pathDepth path - 1) = some nm)
    (hdir : (parent.flags >>> LXFS_DIR_TYPE_SHIFT) &&& LXFS_DIR_TYPE_MASK = LXFS_DIR_TYPE_DIR)
    (hperm : lxfsCreateWritePermOk parent uid gid = true)
    (hreg : S_ISREG mode = true)
    (hfb : lxfsFindFreeBlock mp 0 = nb) (hnb : nb ≠ 0)
    (h0 : mp.ioFail mp.ioCount = false)
    (h1 : mp.ioFail (mp.ioCount + 1) = true)
    (h2 : mp.ioFail (mp.ioCount + 2) = false) :
    ∃ mp' d, lxfsCreate env f dest0 mp path mode uid gid symlink = some (-EIOERR, mp', d)
      ∧ mp'.chain nb = LXFS_BLOCK_FREE ∧ (∀ b, mp'.chain b = mp.chain b) ∧ d.block = nb := by
  have hfree := lxfsFindFreeBlock_free mp 0 nb hfb hnb
  simp only [lxfsCreate, hd, if_pos, hf, lxfsCreateStage2, hnm, hdir, hperm,
    lxfsCreateAlloc, hhl, hfb, hnb, ioStep, lxfsSetNextBlock, h0, h1, h2,
    lxfsWriteBlockLow, memsetLow, lxfsFlushBlock, hreg, ne_eq, not_true, ite_true,
    ite_false, not_false_eq_true, if_true, if_false, reduceIte]
  refine ⟨_, _, rfl, ?_, ?_, ?_⟩
  · simp
  · intro b
    by_cases hb : b = nb
    · subst hb; simp [hfree]
    · simp [hb]
  · rfl

/-- Rollback of the freshly allocated object block when the in-place
(non-straddling) write of the new directory entry into the parent fails
(create.c lines 181-184): the chain-map entry of the new block is set back
to `FREE` and `-EIO` returned. -/
theorem c3aux_entry_write_rollback (env : Env) (f : Nat) (dest0 : LXFSDirectoryEntry)
    (mp : Mountpoint) (path : List Nat) (mode uid gid : Nat) (symlink nm : List Nat)
    (parent : LXFSDirectoryEntry) (nb : Nat)
    (hhl : dest0.block = 0)
    (hd : env.pathDepth path ≤ 1)
    (hf : env.find [47] = some parent)
    (hnm : env.pathComponent path (env.pathDepth path - 1) = some nm)
    (hdir : (parent.flags >>> LXFS_DIR_TYPE_SHIFT) &&& LXFS_DIR_TYPE_MASK = LXFS_DIR_TYPE_DIR)
    (hperm : lxfsCreateWritePermOk parent uid gid = true)
    (hreg : S_ISREG mode = true)
    (hfb : lxfsFindFreeBlock mp 0 = nb) (hnb : nb ≠ 0)
    (hpch : mp.chain parent.block = LXFS_BLOCK_EOF)
    (hbs : LXFS_DIRHDR_SIZE < mp.blockSizeBytes)
    (hfit : lxfsFreeFits ((mp.disk parent.block).entAt LXFS_DIRHDR_SIZE)
        (LXFS_DIRENT_STRUCT_SIZE + nm.length - 511) = true)
    (hin : LXFS_DIRHDR_SIZE + (LXFS_DIRENT_STRUCT_SIZE + nm.length - 511) ≤ mp.blockSizeBytes)
    (h0 : mp.ioFail mp.ioCount = false)
    (h1 : mp.ioFail (mp.ioCount + 1) = false)
    (h2 : mp.ioFail (mp.ioCount + 2) = false)
    (h3 : mp.ioFail (mp.ioCount + 3) = true)
    (h4 : mp.ioFail (mp.ioCount + 4) = false) :
    ∃ mp' d, lxfsCreate env (f + 1) dest0 mp path mode uid gid symlink = some (-EIOERR, mp', d)
      ∧ mp'.chain nb = LXFS_BLOCK_FREE ∧ (∀ b, mp'.chain b = mp.chain b) ∧ d.block = nb := by
  have hfree := lxfsFindFreeBlock_free mp 0 nb hfb hnb
  have hEOFne : LXFS_BLOCK_EOF ≠ 0 := by decide
  have hne : parent.block ≠ nb := by
    intro h
    rw [h, hfree] at hpch
    exact hEOFne hpch.symm
  simp only [lxfsCreate, hd, if_pos, hf, lxfsCreateStage2, hnm, hdir, hperm,
    lxfsCreateAlloc, hhl, hfb, hnb, ioStep, lxfsSetNextBlock, h0, h1, h2, h3, h4,
    lxfsWriteBlockLow, memsetLow, lxfsFlushBlock, hreg, ne_eq, not_true, ite_true,
    ite_false, not_false_eq_true, if_true, if_false, reduceIte, Bool.false_eq_true,
    Bool.true_eq_false, lxfsInsertLoop, lxfsReadNextBlock, lxfsReadBlockHigh, loadLow,
    loadHigh, lowProj, lxfsScanStep, lxfsFillEntry, writeEntryAt, hne, hpch, hbs, hin,
    hEOFne, hfit, hfree]
  refine ⟨_, _, rfl, ?_, ?_, ?_⟩
  · simp
  · intro b
    by_cases hb : b = nb
    · subst hb; simp [hfree]
    · simp [hb]
  · rfl

/-- Sample volume refuting the straddling-path rollback: parent `/d` at
block 2 (single-block chain) filled by one valid entry of size 452, so the
first reusable slot sits at offset 500 and an 18-byte entry straddles the
512-byte block boundary; blocks 3 and 4 are free; the fourth I/O operation
(the chain-link write attaching the extra directory block) fails. -/
def c3slotA : LXFSDirectoryEntry := { zeroEntry with flags := 1, entrySize := 452 }

def c3parent : LXFSDirectoryEntry :=
  { zeroEntry with flags := 3, block := 2, permissions := 2, owner := 1, group := 1 }

def c3mp : Mountpoint :=
  { blockSizeBytes := 512, nBlocks := 8
    chain := fun b => if b = 3 then 0 else if b = 4 then 0 else LXFS_BLOCK_EOF
    disk := fun b => if b = 2 then { bd0 with entAt := fun o => if o = 48 then c3slotA else zeroEntry } else bd0
    meta := bd0, buf := buf0, ioFail := fun k => k == 3, ioCount := 0 }

def c3env : Env :=
  { now := 7000
    find := fun p => if p = [47, 100] then some c3parent else none
    pathDepth := fun _ => 2
    parentPathOf := fun p => if p = [47, 100, 47, 98] then some [47, 100] else none
    pathComponent := fun p i => if p = [47, 100, 47, 98] ∧ i = 1 then some [98] else none
    stackEntry := zeroEntry }

def c3run : Option (Int × Mountpoint × LXFSDirectoryEntry) :=
  lxfsCreate c3env 6 zeroEntry c3mp [47, 100, 47, 98] 33188 1 1 []

/-- C3 counterexample: creating `/d/b` allocates fresh block 3 for the new
file, the reusable slot straddles the block boundary, and the chain-link
write `lxfsSetNextBlock(prevBlock, block)` attaching the extra directory
block fails; lxfsCreate returns `-EIO` but block 3's chain-map entry is
still `EOF` — it is never set back to `FREE` (create.c line 190 returns
without any rollback), refuting the claim at this concrete input. -/
theorem c3_straddle_failure_keeps_block_allocated :
    (c3run.map fun r => (r.1, r.2.2.block, r.2.1.chain 3))
      = some (-EIOERR, 3, LXFS_BLOCK_EOF)
    ∧ LXFS_BLOCK_EOF ≠ LXFS_BLOCK_FREE := by
  refine ⟨by decide, by decide⟩

/-- C3 (amended): failures of the initial object-block write and of the
in-place (non-straddling) directory-entry write do roll the newly allocated
block back to `FREE` before returning the error; the straddling-path
failures do not (see the counterexample). -/
theorem c3_rollback_on_nonstraddle_failures :
    (∀ (env : Env) (f : Nat) (dest0 : LXFSDirectoryEntry) (mp : Mountpoint)
      (path : List Nat) (mode uid gid : Nat) (symlink nm : List Nat)
      (parent : LXFSDirectoryEntry) (nb : Nat),
      dest0.block = 0 →
      env.pathDepth path ≤ 1 →
      env.find [47] = some parent →
      env.pathComponent path (env.pathDepth path - 1) = some nm →
      (parent.flags >>> LXFS_DIR_TYPE_SHIFT) &&& LXFS_DIR_TYPE_MASK = LXFS_DIR_TYPE_DIR →
      lxfsCreateWritePermOk parent uid gid = true →
      S_ISREG mode = true →
      lxfsFindFreeBlock mp 0 = nb → nb ≠ 0 →
      mp.ioFail mp.ioCount = false →
      mp.ioFail (mp.ioCount + 1) = true →
      mp.ioFail (mp.ioCount + 2) = false →
      ∃ mp' d, lxfsCreate env f dest0 mp path mode uid gid symlink = some (-EIOERR, mp', d)
        ∧ mp'.chain nb = LXFS_BLOCK_FREE ∧ (∀ b, mp'.chain b = mp.chain b) ∧ d.block = nb)
    ∧ (∀ (env : Env) (f : Nat) (dest0 : LXFSDirectoryEntry) (mp : Mountpoint)
      (path : List Nat) (mode uid gid : Nat) (symlink nm : List Nat)
      (parent : LXFSDirectoryEntry) (nb : Nat),
      dest0.block = 0 →
      env.pathDepth path ≤ 1 →
      env.find [47] = some parent →
      env.pathComponent path (env.pathDepth path - 1) = some nm →
      (parent.flags >>> LXFS_DIR_TYPE_SHIFT) &&& LXFS_DIR_TYPE_MASK = LXFS_DIR_TYPE_DIR →
      lxfsCreateWritePermOk parent uid gid = true →
      S_ISREG mode = true →
      lxfsFindFreeBlock mp 0 = nb → nb ≠ 0 →
      mp.chain parent.block = LXFS_BLOCK_EOF →
      LXFS_DIRHDR_SIZE < mp.blockSizeBytes →
      lxfsFreeFits ((mp.disk parent.block).entAt LXFS_DIRHDR_SIZE)
        (LXFS_DIRENT_STRUCT_SIZE + nm.length - 511) = true →
      LXFS_DIRHDR_SIZE + (LXFS_DIRENT_STRUCT_SIZE + nm.length - 511) ≤ mp.blockSizeBytes →
      mp.ioFail mp.ioCount = false →
      mp.ioFail (mp.ioCount + 1) = false →
      mp.ioFail (mp.ioCount + 2) = false →
      mp.ioFail (mp.ioCount + 3) = true →
      mp.ioFail (mp.ioCount + 4) = false →
      ∃ mp' d, lxfsCreate env (f + 1) dest0 mp path mode uid gid symlink = some (-EIOERR, mp', d)
        ∧ mp'.chain nb = LXFS_BLOCK_FREE ∧ (∀ b, mp'.chain b = mp.chain b) ∧ d.block = nb) := by
  constructor
  · intro env f dest0 mp path mode uid gid symlink nm parent nb hhl hd hf hnm hdir hperm hreg hfb hnb h0 h1 h2
    exact c3aux_object_write_rollback env f dest0 mp path mode uid gid symlink nm parent nb
      hhl hd hf hnm hdir hperm hreg hfb hnb h0 h1 h2
  · intro env f dest0 mp path mode uid gid symlink nm parent nb hhl hd hf hnm hdir hperm hreg
      hfb hnb hpch hbs hfit hin h0 h1 h2 h3 h4
    exact c3aux_entry_write_rollback env f dest0 mp path mode uid gid symlink nm parent nb
      hhl hd hf hnm hdir hperm hreg hfb hnb hpch hbs hfit hin h0 h1 h2 h3 h4

/-- Witness volume for the rollback theorem: root parent at block 2 with
virgin slot space, block 3 free, and the second I/O operation (the object
header write) failing. -/
def c3wparent : LXFSDirectoryEntry :=
  { zeroEntry with flags := 3, block := 2, permissions := 2, owner := 1, group := 1 }

def c3wmp : Mountpoint :=
  { blockSizeBytes := 512, nBlocks := 8
    chain := fun b => if b = 3 then 0 else LXFS_BLOCK_EOF
    disk := fun _ => bd0
    meta := bd0, buf := buf0, ioFail := fun k => k == 1, ioCount := 0 }

def c3wenv : Env :=
  { now := 0
    find := fun p => if p = [47] then some c3wparent else none
    pathDepth := fun _ => 1
    parentPathOf := fun _ => none
    pathComponent := fun p i => if p = [47, 98] ∧ i = 0 then some [98] else none
    stackEntry := zeroEntry }

/-- Witness for the rollback theorem: instantiating its first conjunct at the
concrete witness volume discharges every hypothesis and yields the rollback. -/
theorem c3_rollback_on_nonstraddle_failures_witness :
    ∃ mp' d, lxfsCreate c3wenv 6 zeroEntry c3wmp [47, 98] 33188 1 1 [] = some (-EIOERR, mp', d)
      ∧ mp'.chain 3 = LXFS_BLOCK_FREE ∧ (∀ b, mp'.chain b = c3wmp.chain b) ∧ d.block = 3 :=
  c3_rollback_on_nonstraddle_failures.1 c3wenv 6 zeroEntry c3wmp [47, 98] 33188 1 1 [] [98]
    c3wparent 3 (by decide) (by decide) (by decide) (by decide) (by decide) (by decide)
    (by decide) (by decide) (by decide) (by decide) (by decide) (by decide)

/-- Hard-link creation on the non-straddling insertion path: the target's
reference count is incremented by exactly one, its size is copied into the
new entry, and the chain map is completely unchanged — no block of any kind
is allocated (create.c lines 146-152). -/
theorem c4aux_hardlink_nonstraddle (env : Env) (f : Nat) (dest0 : LXFSDirectoryEntry)
    (mp : Mountpoint) (path : List Nat) (mode uid gid : Nat) (symlink nm : List Nat)
    (parent : LXFSDirectoryEntry) (hb : Nat)
    (hhl : dest0.block = hb) (hhb : hb ≠ 0)
    (hd : env.pathDepth path ≤ 1)
    (hf : env.find [47] = some parent)
    (hnm : env.pathComponent path (env.pathDepth path - 1) = some nm)
    (hdir : (parent.flags >>> LXFS_DIR_TYPE_SHIFT) &&& LXFS_DIR_TYPE_MASK = LXFS_DIR_TYPE_DIR)
    (hperm : lxfsCreateWritePermOk parent uid gid = true)
    (hpch : mp.chain parent.block = LXFS_BLOCK_EOF)
    (hne : parent.block ≠ hb)
    (hbs : LXFS_DIRHDR_SIZE < mp.blockSizeBytes)
    (hfit : lxfsFreeFits ((mp.disk parent.block).entAt LXFS_DIRHDR_SIZE)
        (LXFS_DIRENT_STRUCT_SIZE + nm.length - 511) = true)
    (hin : LXFS_DIRHDR_SIZE + (LXFS_DIRENT_STRUCT_SIZE + nm.length - 511) ≤ mp.blockSizeBytes)
    (hio : ∀ k, mp.ioFail k = false) :
    ∃ mp' d, lxfsCreate env (f + 1) dest0 mp path mode uid gid symlink = some (0, mp', d)
      ∧ (mp'.disk hb).fileHeader.refCount = (mp.disk hb).fileHeader.refCount + 1
      ∧ (mp'.disk hb).fileHeader.size = (mp.disk hb).fileHeader.size
      ∧ d.size = (mp.disk hb).fileHeader.size
      ∧ (∀ b, mp'.chain b = mp.chain b)
      ∧ d.block = hb := by
  have hEOFne : LXFS_BLOCK_EOF ≠ 0 := by decide
  simp only [lxfsCreate, hd, if_pos, hf, lxfsCreateStage2, hnm, hdir, hperm,
    lxfsCreateAlloc, hhl, hhb, ioStep, lxfsSetNextBlock, hio,
    lxfsWriteBlockLow, lxfsReadBlockLow, memsetLow, lxfsFlushBlock, ne_eq, not_true, ite_true,
    ite_false, not_false_eq_true, if_true, if_false, reduceIte, Bool.false_eq_true,
    Bool.true_eq_false, lxfsInsertLoop, lxfsReadNextBlock, lxfsReadBlockHigh, loadLow,
    loadHigh, lowProj, lxfsScanStep, lxfsFillEntry, writeEntryAt, lxfsFinishInsert,
    hne, hpch, hbs, hin, hEOFne, hfit]
  have hne2 : hb ≠ parent.block := Ne.symm hne
  refine ⟨_, _, rfl, ?_, ?_, ?_, ?_, ?_⟩
  · simp [hne2]
  · simp [hne2]
  · rfl
  · intro b; rfl
  · rfl

/-- Sample volume for the straddling hard-link scenario: parent `/d` at
block 2, one valid 452-byte entry so the free slot sits at offset 500 and
the new 18-byte entry straddles the 512-byte boundary; the link target is
the file at block 6 (refCount 1, size 1234); block 4 is the only free block. -/
def c4mp : Mountpoint :=
  { blockSizeBytes := 512, nBlocks := 8
    chain := fun b => if b = 4 then 0 else LXFS_BLOCK_EOF
    disk := fun b =>
      if b = 2 then { bd0 with entAt := fun o => if o = 48 then c3slotA else zeroEntry }
      else if b = 6 then { bd0 with fileHeader := { refCount := 1, size := 1234 } }
      else bd0
    meta := bd0, buf := buf0, ioFail := fun _ => false, ioCount := 0 }

def c4dest0 : LXFSDirectoryEntry := { zeroEntry with block := 6 }

def c4run : Option (Int × Mountpoint × LXFSDirectoryEntry) :=
  lxfsCreate c3env 6 c4dest0 c4mp [47, 100, 47, 98] 0 1 1 []

/-- C4 counterexample: a hard-link creation (template block = 6) that
succeeds through the straddling insertion path DOES allocate a new block —
block 4 goes from `FREE` to `EOF` and is linked after the parent's first
block — refuting "allocates no new block"; the reference-count increment
and size copy still hold. -/
theorem c4_hardlink_straddle_allocates_block :
    c4mp.chain 4 = LXFS_BLOCK_FREE
    ∧ (c4run.map fun r => (r.1, r.2.1.chain 4, r.2.1.chain 2,
        (r.2.1.disk 6).fileHeader.refCount, r.2.2.size, r.2.2.block))
      = some (0, LXFS_BLOCK_EOF, 4, 2, 1234, 6)
    ∧ LXFS_BLOCK_EOF ≠ LXFS_BLOCK_FREE := by
  refine ⟨by decide, by decide, by decide⟩

/-- C4 (amended): a successful hard-link creation increments the target's
reference count by exactly 1 and copies the target's size into the new
entry; no block is allocated for the link target itself — on the
non-straddling insertion path the chain map is completely unchanged — but
when the chosen parent slot straddles a block boundary, one extra directory
block is allocated for the parent (and only that block changes besides the
parent chain link). -/
theorem c4_hardlink_refcount_size_no_target_alloc :
    (∀ (env : Env) (f : Nat) (dest0 : LXFSDirectoryEntry) (mp : Mountpoint)
      (path : List Nat) (mode uid gid : Nat) (symlink nm : List Nat)
      (parent : LXFSDirectoryEntry) (hb : Nat),
      dest0.block = hb → hb ≠ 0 →
      env.pathDepth path ≤ 1 →
      env.find [47] = some parent →
      env.pathComponent path (env.pathDepth path - 1) = some nm →
      (parent.flags >>> LXFS_DIR_TYPE_SHIFT) &&& LXFS_DIR_TYPE_MASK = LXFS_DIR_TYPE_DIR →
      lxfsCreateWritePermOk parent uid gid = true →
      mp.chain parent.block = LXFS_BLOCK_EOF →
      parent.block ≠ hb →
      LXFS_DIRHDR_SIZE < mp.blockSizeBytes →
      lxfsFreeFits ((mp.disk parent.block).entAt LXFS_DIRHDR_SIZE)
        (LXFS_DIRENT_STRUCT_SIZE + nm.length - 511) = true →
      LXFS_DIRHDR_SIZE + (LXFS_DIRENT_STRUCT_SIZE + nm.length - 511) ≤ mp.blockSizeBytes →
      (∀ k, mp.ioFail k = false) →
      ∃ mp' d, lxfsCreate env (f + 1) dest0 mp path mode uid gid symlink = some (0, mp', d)
        ∧ (mp'.disk hb).fileHeader.refCount = (mp.disk hb).fileHeader.refCount + 1
        ∧ (mp'.disk hb).fileHeader.size = (mp.disk hb).fileHeader.size
        ∧ d.size = (mp.disk hb).fileHeader.size
        ∧ (∀ b, mp'.chain b = mp.chain b)
        ∧ d.block = hb)
    ∧ ((c4run.map fun r => (r.1, (r.2.1.disk 6).fileHeader.refCount, r.2.2.size,
          r.2.1.chain 6, r.2.1.chain 4, r.2.1.chain 2))
        = some (0, 2, 1234, LXFS_BLOCK_EOF, LXFS_BLOCK_EOF, 4)
      ∧ (∀ b, b ≠ 4 → b ≠ 2 →
          (c4run.map fun r => r.2.1.chain b) = some (c4mp.chain b))) := by
  refine ⟨?_, by decide, ?_⟩
  · intro env f dest0 mp path mode uid gid symlink nm parent hb hhl hhb hd hf hnm hdir hperm
      hpch hne hbs hfit hin hio
    exact c4aux_hardlink_nonstraddle env f dest0 mp path mode uid gid symlink nm parent hb
      hhl hhb hd hf hnm hdir hperm hpch hne hbs hfit hin hio
  · intro b hb4 hb2
    have hsh : ∃ mp' d, c4run = some ((0 : Int), mp', d)
        ∧ ∀ x, mp'.chain x = if x = 4 then LXFS_BLOCK_EOF else if x = 2 then 4 else c4mp.chain x :=
      ⟨_, _, rfl, fun x => rfl⟩
    obtain ⟨mp', d, he, hc⟩ := hsh
    rw [he, Option.map_some', hc b]
    simp [hb4, hb2]

/-- Witness volume for the hard-link theorem: root parent at block 2 with a
virgin slot right after the header, link target at block 6 with reference
count 3 and size 777, all I/O succeeding. -/
def c4wmp : Mountpoint :=
  { blockSizeBytes := 512, nBlocks := 8
    chain := fun b => if b = 3 then 0 else LXFS_BLOCK_EOF
    disk := fun b => if b = 6 then { bd0 with fileHeader := { refCount := 3, size := 777 } } else bd0
    meta := bd0, buf := buf0, ioFail := fun _ => false, ioCount := 0 }

/-- Witness for the hard-link theorem: instantiating its universal conjunct
at the concrete witness volume. -/
theorem c4_hardlink_refcount_size_no_target_alloc_witness :
    ∃ mp' d, lxfsCreate c3wenv 6 { zeroEntry with block := 6 } c4wmp [47, 98] 0 1 1 []
        = some (0, mp', d)
      ∧ (mp'.disk 6).fileHeader.refCount = (c4wmp.disk 6).fileHeader.refCount + 1
      ∧ (mp'.disk 6).fileHeader.size = (c4wmp.disk 6).fileHeader.size
      ∧ d.size = (c4wmp.disk 6).fileHeader.size
      ∧ (∀ b, mp'.chain b = c4wmp.chain b)
      ∧ d.block = 6 :=
  c4_hardlink_refcount_size_no_target_alloc.1 c3wenv 5 { zeroEntry with block := 6 } c4wmp
    [47, 98] 0 1 1 [] [98] c3wparent 6 (by decide) (by decide) (by decide) (by decide)
    (by decide) (by decide) (by decide) (by decide) (by decide) (by decide) (by decide)
    (by decide) (fun _ => rfl)

/-- Bit-mask agreement transfers to any contained single-bit mask. -/
theorem and_mask_eq_of_agree (a b m k : Nat) (hk : m &&& k = k) (h : a &&& m = b &&& m) :
    a &&& k = b &&& k := by
  have h2 : a &&& m &&& k = b &&& m &&& k := by rw [h]
  rwa [Nat.and_assoc, Nat.and_assoc, hk] at h2

theorem c5aux_open_owner (e e' : LXFSDirectoryEntry) (flags uid gid : Nat)
    (h1 : uid = e.owner) (h2 : uid = e'.owner)
    (hagree : e.permissions &&& 7 = e'.permissions &&& 7) :
    lxfsOpenAccessStatus e flags uid gid = lxfsOpenAccessStatus e' flags uid gid := by
  have hr := and_mask_eq_of_agree e.permissions e'.permissions 7 LXFS_PERMS_OWNER_R (by decide) hagree
  have hw := and_mask_eq_of_agree e.permissions e'.permissions 7 LXFS_PERMS_OWNER_W (by decide) hagree
  simp only [lxfsOpenAccessStatus]
  rw [if_pos h1, if_pos h2, hr, hw]

theorem c5aux_open_group (e e' : LXFSDirectoryEntry) (flags uid gid : Nat)
    (h1 : uid ≠ e.owner) (h2 : uid ≠ e'.owner)
    (h3 : gid = e.group) (h4 : gid = e'.group)
    (hagree : e.permissions &&& 56 = e'.permissions &&& 56) :
    lxfsOpenAccessStatus e flags uid gid = lxfsOpenAccessStatus e' flags uid gid := by
  have hr := and_mask_eq_of_agree e.permissions e'.permissions 56 LXFS_PERMS_GROUP_R (by decide) hagree
  have hw := and_mask_eq_of_agree e.permissions e'.permissions 56 LXFS_PERMS_GROUP_W (by decide) hagree
  simp only [lxfsOpenAccessStatus]
  rw [if_neg h1, if_neg h2, if_pos h3, if_pos h4, hr, hw]

theorem c5aux_open_other (e e' : LXFSDirectoryEntry) (flags uid gid : Nat)
    (h1 : uid ≠ e.owner) (h2 : uid ≠ e'.owner)
    (h3 : gid ≠ e.group) (h4 : gid ≠ e'.group)
    (hagree : e.permissions &&& 448 = e'.permissions &&& 448) :
    lxfsOpenAccessStatus e flags uid gid = lxfsOpenAccessStatus e' flags uid gid := by
  have hr := and_mask_eq_of_agree e.permissions e'.permissions 448 LXFS_PERMS_OTHER_R (by decide) hagree
  have hw := and_mask_eq_of_agree e.permissions e'.permissions 448 LXFS_PERMS_OTHER_W (by decide) hagree
  simp only [lxfsOpenAccessStatus]
  rw [if_neg h1, if_neg h2, if_neg h3, if_neg h4, hr, hw]

theorem c5aux_create_owner (e e' : LXFSDirectoryEntry) (uid gid : Nat)
    (h1 : uid = e.owner) (h2 : uid = e'.owner)
    (hagree : e.permissions &&& 7 = e'.permissions &&& 7) :
    lxfsCreateWritePermOk e uid gid = lxfsCreateWritePermOk e' uid gid := by
  have hw := and_mask_eq_of_agree e.permissions e'.permissions 7 LXFS_PERMS_OWNER_W (by decide) hagree
  simp only [lxfsCreateWritePermOk]
  rw [if_pos h1, if_pos h2, hw]

theorem c5aux_create_group (e e' : LXFSDirectoryEntry) (uid gid : Nat)
    (h1 : uid ≠ e.owner) (h2 : uid ≠ e'.owner)
    (h3 : gid = e.group) (h4 : gid = e'.group)
    (hagree : e.permissions &&& 56 = e'.permissions &&& 56) :
    lxfsCreateWritePermOk e uid gid = lxfsCreateWritePermOk e' uid gid := by
  have hw := and_mask_eq_of_agree e.permissions e'.permissions 56 LXFS_PERMS_GROUP_W (by decide) hagree
  simp only [lxfsCreateWritePermOk]
  rw [if_neg h1, if_neg h2, if_pos h3, if_pos h4, hw]

theorem c5aux_create_other (e e' : LXFSDirectoryEntry) (uid gid : Nat)
    (h1 : uid ≠ e.owner) (h2 : uid ≠ e'.owner)
    (h3 : gid ≠ e.group) (h4 : gid ≠ e'.group)
    (hagree : e.permissions &&& 448 = e'.permissions &&& 448) :
    lxfsCreateWritePermOk e uid gid = lxfsCreateWritePermOk e' uid gid := by
  have hw := and_mask_eq_of_agree e.permissions e'.permissions 448 LXFS_PERMS_OTHER_W (by decide) hagree
  simp only [lxfsCreateWritePermOk]
  rw [if_neg h1, if_neg h2, if_neg h3, if_neg h4, hw]

/-- Sample volume for the permission scenario: `/a` is a regular file at
block 7, mode rw-r--r-- (permission bits 75), uid 1, gid 1, on a volume with
block size 512. -/
def c5entry : LXFSDirectoryEntry :=
  { zeroEntry with flags := 1, block := 7, permissions := 75, owner := 1, group := 1 }

def c5mp : Mountpoint :=
  { blockSizeBytes := 512, nBlocks := 8
    chain := fun _ => LXFS_BLOCK_EOF
    disk := fun _ => bd0
    meta := bd0, buf := buf0, ioFail := fun _ => false, ioCount := 0 }

def c5env : Env :=
  { now := 0
    find := fun p => if p = [47, 97] then some c5entry else none
    pathDepth := fun _ => 2
    parentPathOf := fun _ => none
    pathComponent := fun _ _ => none
    stackEntry := zeroEntry }

def c5cmdRead : OpenCommand :=
  { path := [47, 97], abspath := [47, 97], flags := O_RDONLY, mode := 0, umask := 0, uid := 1, gid := 1 }

def c5cmdWrite : OpenCommand :=
  { path := [47, 97], abspath := [47, 97], flags := O_WRONLY, mode := 0, umask := 0, uid := 2, gid := 2 }

/-- C5: both permission checks consult exactly one class chosen by
owner → group → other precedence — each check's result is invariant under
any change of the permission bits outside the selected class — and on the
scenario volume (block size 512, `/a` rw-r--r-- uid=1 gid=1) an open for
read by uid 1 succeeds while an open for write by uid=2/gid=2 is refused
with `AccessDenied`. -/
theorem c5_permission_class_precedence :
    (∀ (e e' : LXFSDirectoryEntry) (flags uid gid : Nat),
      uid = e.owner → uid = e'.owner →
      e.permissions &&& 7 = e'.permissions &&& 7 →
      lxfsOpenAccessStatus e flags uid gid = lxfsOpenAccessStatus e' flags uid gid)
    ∧ (∀ (e e' : LXFSDirectoryEntry) (flags uid gid : Nat),
      uid ≠ e.owner → uid ≠ e'.owner → gid = e.group → gid = e'.group →
      e.permissions &&& 56 = e'.permissions &&& 56 →
      lxfsOpenAccessStatus e flags uid gid = lxfsOpenAccessStatus e' flags uid gid)
    ∧ (∀ (e e' : LXFSDirectoryEntry) (flags uid gid : Nat),
      uid ≠ e.owner → uid ≠ e'.owner → gid ≠ e.group → gid ≠ e'.group →
      e.permissions &&& 448 = e'.permissions &&& 448 →
      lxfsOpenAccessStatus e flags uid gid = lxfsOpenAccessStatus e' flags uid gid)
    ∧ (∀ (e e' : LXFSDirectoryEntry) (uid gid : Nat),
      uid = e.owner → uid = e'.owner →
      e.permissions &&& 7 = e'.permissions &&& 7 →
      lxfsCreateWritePermOk e uid gid = lxfsCreateWritePermOk e' uid gid)
    ∧ (∀ (e e' : LXFSDirectoryEntry) (uid gid : Nat),
      uid ≠ e.owner → uid ≠ e'.owner → gid = e.group → gid = e'.group →
      e.permissions &&& 56 = e'.permissions &&& 56 →
      lxfsCreateWritePermOk e uid gid = lxfsCreateWritePermOk e' uid gid)
    ∧ (∀ (e e' : LXFSDirectoryEntry) (uid gid : Nat),
      uid ≠ e.owner → uid ≠ e'.owner → gid ≠ e.group → gid ≠ e'.group →
      e.permissions &&& 448 = e'.permissions &&& 448 →
      lxfsCreateWritePermOk e uid gid = lxfsCreateWritePermOk e' uid gid)
    ∧ ((lxfsOpen c5env 2 c5mp c5cmdRead).map fun r => r.1) = some 0
    ∧ ((lxfsOpen c5env 2 c5mp c5cmdWrite).map fun r => r.1) = some (-EACCES) := by
  refine ⟨?_, ?_, ?_, ?_, ?_, ?_, by decide, by decide⟩
  · intro e e' flags uid gid h1 h2 hagree
    exact c5aux_open_owner e e' flags uid gid h1 h2 hagree
  · intro e e' flags uid gid h1 h2 h3 h4 hagree
    exact c5aux_open_group e e' flags uid gid h1 h2 h3 h4 hagree
  · intro e e' flags uid gid h1 h2 h3 h4 hagree
    exact c5aux_open_other e e' flags uid gid h1 h2 h3 h4 hagree
  · intro e e' uid gid h1 h2 hagree
    exact c5aux_create_owner e e' uid gid h1 h2 hagree
  · intro e e' uid gid h1 h2 h3 h4 hagree
    exact c5aux_create_group e e' uid gid h1 h2 h3 h4 hagree
  · intro e e' uid gid h1 h2 h3 h4 hagree
    exact c5aux_create_other e e' uid gid h1 h2 h3 h4 hagree

/-- Witness for the precedence theorem: instantiating its owner-class
conjunct at two entries that agree on the owner bits (3) but differ on every
group/other bit shows the owner check ignores the other classes. -/
theorem c5_permission_class_precedence_witness :
    lxfsOpenAccessStatus { zeroEntry with permissions := 75, owner := 1, group := 1 } O_RDONLY 1 1
      = lxfsOpenAccessStatus { zeroEntry with permissions := 3, owner := 1, group := 9 } O_RDONLY 1 1 :=
  c5_permission_class_precedence.1 { zeroEntry with permissions := 75, owner := 1, group := 1 }
    { zeroEntry with permissions := 3, owner := 1, group := 9 } O_RDONLY 1 1
    (by decide) (by decide) (by decide)

/-- C7: when the path does not resolve and creation is requested, the mode
handed to the Create Engine is exactly `(requested mode AND NOT umask) OR
S_IFREG`, and the request is refused with `AccessDenied` — leaving the
volume untouched and never invoking the Create Engine — precisely when read
access is requested without the derived owner-read bit or write access
without the derived owner-write bit (open.c lines 36-56). -/
theorem c7_open_create_mode_and_access_check (env : Env) (f : Nat) (mp : Mountpoint)
    (cmd : OpenCommand)
    (hfind : env.find cmd.path = none)
    (hcreat : cmd.flags &&& O_CREAT ≠ 0) :
    (lxfsOpenCreateCheckStatus cmd.flags (lxfsOpenDerivedMode cmd.mode cmd.umask) ≠ 0 →
      lxfsOpen env (f + 1) mp cmd = some (-EACCES, mp))
    ∧ (lxfsOpenCreateCheckStatus cmd.flags (lxfsOpenDerivedMode cmd.mode cmd.umask) = 0 →
      lxfsOpen env (f + 1) mp cmd
        = (lxfsCreate env (f + 1) { env.stackEntry with block := 0 } mp cmd.path
            (lxfsOpenDerivedMode cmd.mode cmd.umask) cmd.uid cmd.gid []).map
            (fun r => (r.1, r.2.1)))
    ∧ lxfsOpenDerivedMode cmd.mode cmd.umask = Nat.ldiff cmd.mode cmd.umask ||| S_IFREG
    ∧ (lxfsOpenCreateCheckStatus cmd.flags (lxfsOpenDerivedMode cmd.mode cmd.umask) ≠ 0
      ↔ ((cmd.flags &&& O_RDONLY ≠ 0 ∧ (lxfsOpenDerivedMode cmd.mode cmd.umask) &&& S_IRUSR = 0)
        ∨ (cmd.flags &&& O_WRONLY ≠ 0 ∧ (lxfsOpenDerivedMode cmd.mode cmd.umask) &&& S_IWUSR = 0))) := by
  refine ⟨?_, ?_, rfl, ?_⟩
  · intro hst
    have hacc : lxfsOpenCreateCheckStatus cmd.flags (lxfsOpenDerivedMode cmd.mode cmd.umask) = -EACCES := by
      unfold lxfsOpenCreateCheckStatus at hst ⊢
      by_cases hcond : ((cmd.flags &&& O_RDONLY != 0 && (lxfsOpenDerivedMode cmd.mode cmd.umask) &&& S_IRUSR == 0)
          || (cmd.flags &&& O_WRONLY != 0 && (lxfsOpenDerivedMode cmd.mode cmd.umask) &&& S_IWUSR == 0)) = true
      · rw [if_pos hcond]
      · rw [if_neg hcond] at hst
        exact absurd rfl hst
    simp only [lxfsOpen, hfind, hcreat, ne_eq, not_true, ite_true, ite_false,
      not_false_eq_true, if_true, if_false, reduceIte]
    rw [if_pos]
    · rw [hacc]
    · rw [hacc]; decide
  · intro hst
    simp only [lxfsOpen, hfind, hcreat, ne_eq, not_true, ite_true, ite_false,
      not_false_eq_true, if_true, if_false, reduceIte]
    rw [if_neg (by rw [hst]; simp)]
    cases hc : lxfsCreate env (f + 1) { env.stackEntry with block := 0 } mp cmd.path
        (lxfsOpenDerivedMode cmd.mode cmd.umask) cmd.uid cmd.gid [] with
    | none => rfl
    | some r => rfl
  · unfold lxfsOpenCreateCheckStatus
    by_cases h : ((cmd.flags &&& O_RDONLY != 0 && (lxfsOpenDerivedMode cmd.mode cmd.umask) &&& S_IRUSR == 0)
        || (cmd.flags &&& O_WRONLY != 0 && (lxfsOpenDerivedMode cmd.mode cmd.umask) &&& S_IWUSR == 0)) = true
    · rw [if_pos h]
      simp only [Bool.or_eq_true, Bool.and_eq_true, bne_iff_ne, beq_iff_eq, ne_eq] at h
      simp only [h, iff_true]
      decide
    · rw [if_neg h]
      simp only [Bool.or_eq_true, Bool.and_eq_true, bne_iff_ne, beq_iff_eq, ne_eq] at h
      simp [h]

/-- Environment in which no path resolves, for the创 creation-branch witness. -/
def c7wenv : Env :=
  { now := 0
    find := fun _ => none
    pathDepth := fun _ => 2
    parentPathOf := fun _ => none
    pathComponent := fun _ _ => none
    stackEntry := zeroEntry }

def c7wcmdOk : OpenCommand :=
  { path := [47, 97], abspath := [47, 97], flags := 6, mode := 420, umask := 0, uid := 1, gid := 1 }

def c7wcmdBad : OpenCommand :=
  { path := [47, 97], abspath := [47, 97], flags := 6, mode := 0, umask := 0, uid := 1, gid := 1 }

/-- Bitwise and-not with an empty mask clears nothing. -/
theorem ldiff_zero_eq (a : Nat) : Nat.ldiff a 0 = a := by
  apply Nat.eq_of_testBit_eq
  intro i
  rw [Nat.testBit_ldiff]
  simp

/-- Witness for the creation-branch theorem: with mode 0644 and umask 0 the
derived mode 0100644 reaches the Create Engine; with mode 0 and write access
requested, the request dies with `-EACCES` without touching the volume. -/
theorem c7_open_create_mode_and_access_check_witness :
    lxfsOpen c7wenv 3 c5mp c7wcmdOk
      = (lxfsCreate c7wenv 3 { c7wenv.stackEntry with block := 0 } c5mp c7wcmdOk.path
          (lxfsOpenDerivedMode c7wcmdOk.mode c7wcmdOk.umask) c7wcmdOk.uid c7wcmdOk.gid []).map
          (fun r => (r.1, r.2.1))
    ∧ lxfsOpen c7wenv 3 c5mp c7wcmdBad = some (-EACCES, c5mp) := by
  have hmOk : lxfsOpenDerivedMode c7wcmdOk.mode c7wcmdOk.umask = 33188 := by
    show lxfsOpenDerivedMode 420 0 = 33188
    unfold lxfsOpenDerivedMode
    rw [ldiff_zero_eq]
    decide
  have hmBad : lxfsOpenDerivedMode c7wcmdBad.mode c7wcmdBad.umask = 32768 := by
    show lxfsOpenDerivedMode 0 0 = 32768
    unfold lxfsOpenDerivedMode
    rw [ldiff_zero_eq]
    decide
  exact ⟨(c7_open_create_mode_and_access_check c7wenv 2 c5mp c7wcmdOk rfl (by decide)).2.1
      (by rw [hmOk]; decide),
    (c7_open_create_mode_and_access_check c7wenv 2 c5mp c7wcmdBad rfl (by decide)).1
      (by rw [hmBad]; decide)⟩

/-- Sample volume for the swallowed-failure scenario: clean parent `/d` at
block 2 with virgin entry space; the fifth I/O operation — the re-read of
the parent's first block after the child entry has been written — fails. -/
def c8mp : Mountpoint :=
  { blockSizeBytes := 512, nBlocks := 8
    chain := fun b => if b = 3 then 0 else LXFS_BLOCK_EOF
    disk := fun _ => bd0
    meta := bd0, buf := buf0, ioFail := fun k => k == 4, ioCount := 0 }

def c8run : Option (Int × Mountpoint × LXFSDirectoryEntry) :=
  lxfsCreate c2env 6 zeroEntry c8mp [47, 100, 47, 98] 33188 1 1 []

/-- C8: the post-insertion accounting step of lxfsCreate (create.c lines
207-219, embedded as `lxfsFinishInsert`) returns success 0 whenever the
re-read of the parent's first block fails, advancing only the I/O counter
and leaving every disk block — in particular the parent Directory Header's
total size, entry count and timestamps — untouched; and on a concrete full
creation whose parent re-read (the fifth I/O operation) fails, lxfsCreate
reports 0 with the child entry written but the parent header still all
zeroes instead of size 18 / count 1 / timestamp 7000. -/
theorem c8_parent_reread_failure_swallowed :
    (∀ (dest : LXFSDirectoryEntry) (pb ts : Nat) (mp : Mountpoint),
      mp.ioFail mp.ioCount = true →
      lxfsFinishInsert dest pb ts mp = some (0, { mp with ioCount := mp.ioCount + 1 }))
    ∧ (c8run.map fun r => (r.1, (r.2.1.disk 2).dirHeader,
          ((r.2.1.disk 2).entAt 48).flags, ((r.2.1.disk 2).entAt 48).owner))
      = some (0, zeroDirHeader, 1, 1) := by
  refine ⟨?_, by decide⟩
  intro dest pb ts mp h
  simp only [lxfsFinishInsert, lxfsReadBlockLow, ioStep, h]

/-- Witness volume where every I/O operation fails. -/
def c8wmp : Mountpoint :=
  { blockSizeBytes := 512, nBlocks := 8
    chain := fun _ => LXFS_BLOCK_EOF
    disk := fun _ => bd0
    meta := bd0, buf := buf0, ioFail := fun _ => true, ioCount := 0 }

/-- Witness for the swallowed-failure theorem: instantiating its universal
conjunct at a concrete state whose re-read fails yields success 0 with only
the I/O counter advanced. -/
theorem c8_parent_reread_failure_swallowed_witness :
    lxfsFinishInsert zeroEntry 2 0 c8wmp = some (0, { c8wmp with ioCount := c8wmp.ioCount + 1 }) :=
  c8_parent_reread_failure_swallowed.1 zeroEntry 2 0 c8wmp rfl

/-- Buffer loads do not touch the chain map. -/
@[simp] theorem loadLow_chain (mp : Mountpoint) (bd : BlockData) :
    (loadLow mp bd).chain = mp.chain := rfl

@[simp] theorem loadHigh_chain (mp : Mountpoint) (bd : BlockData) :
    (loadHigh mp bd).chain = mp.chain := rfl

@[simp] theorem copyLowToHigh_chain (mp : Mountpoint) :
    (copyLowToHigh mp).chain = mp.chain := rfl

@[simp] theorem memsetHigh_chain (mp : Mountpoint) :
    (memsetHigh mp).chain = mp.chain := rfl

@[simp] theorem memsetLow_chain (mp : Mountpoint) : (memsetLow mp).chain = mp.chain := rfl

@[simp] theorem writeEntryAt_chain (mp : Mountpoint) (o : Nat) (e : LXFSDirectoryEntry) :
    (writeEntryAt mp o e).chain = mp.chain := rfl

@[simp] theorem flushBlock_id (mp : Mountpoint) (b : Nat) : lxfsFlushBlock mp b = mp := rfl

/-- Block reads do not touch the chain map. -/
@[simp] theorem readBlockHigh_chain (mp : Mountpoint) (b : Nat) :
    ((lxfsReadBlockHigh mp b).2).chain = mp.chain := by
  unfold lxfsReadBlockHigh ioStep
  cases h : mp.ioFail mp.ioCount <;> simp [h, loadHigh]

@[simp] theorem readNextBlock_chain (mp : Mountpoint) (b : Nat) :
    ((lxfsReadNextBlock mp b).2).chain = mp.chain := by
  unfold lxfsReadNextBlock ioStep
  cases h : mp.ioFail mp.ioCount <;> simp [h, loadLow]

@[simp] theorem readBlockLow_chain (mp : Mountpoint) (bk : Nat) :
    ((lxfsReadBlockLow mp bk).2).chain = mp.chain := by
  unfold lxfsReadBlockLow ioStep
  cases hio : mp.ioFail mp.ioCount <;> simp [loadLow]

/-- Block writes do not touch the chain map. -/
@[simp] theorem writeBlockLow_chain (mp : Mountpoint) (bk : Nat) :
    ((lxfsWriteBlockLow mp bk).2).chain = mp.chain := by
  unfold lxfsWriteBlockLow ioStep
  cases hio : mp.ioFail mp.ioCount <;> simp

/-- A chain-map store leaves every other block's chain entry unchanged. -/
theorem setNextBlock_chain_ne (mp : Mountpoint) (bk v x : Nat) (h : x ≠ bk) :
    ((lxfsSetNextBlock mp bk v).2).chain x = mp.chain x := by
  unfold lxfsSetNextBlock ioStep
  cases hio : mp.ioFail mp.ioCount <;> simp [h]

/-- The post-insertion accounting step always reports success. -/
theorem lxfsFinishInsert_status (d : LXFSDirectoryEntry) (pb ts : Nat) (mp : Mountpoint)
    (st : Int) (mp' : Mountpoint) (h : lxfsFinishInsert d pb ts mp = some (st, mp')) :
    st = 0 := by
  unfold lxfsFinishInsert lxfsReadBlockLow ioStep at h
  cases hio : mp.ioFail mp.ioCount with
  | true => rw [hio] at h; simp at h; exact h.1.symm
  | false => rw [hio] at h; simp at h; exact h.1.symm

set_option maxHeartbeats 4000000 in
/-- Every branch of the insertion loop that reports `-ENOSYS` (the chain
walked to `EOF` with no usable slot, create.c lines 222-227) leaves the
chain map exactly as it was when the loop started. -/
theorem c9aux_loop (dest : LXFSDirectoryEntry) (hl pb ts : Nat) :
    ∀ (fuel : Nat) (mp : Mountpoint) (blk off dirOff : Nat) (st : Int) (mp' : Mountpoint),
    lxfsInsertLoop dest hl pb ts fuel mp blk off dirOff = some (st, mp') →
    st = -ENOSYS →
    ∀ b, mp'.chain b = mp.chain b := by
  intro fuel
  induction fuel with
  | zero =>
    intro mp blk off dirOff st mp' heq hst b
    simp [lxfsInsertLoop] at heq
  | succ f ih =>
    intro mp blk off dirOff st mp' heq hst b
    rw [hst] at heq
    simp only [lxfsInsertLoop] at heq
    repeat' split at heq
    all_goals
      first
        | exact Option.noConfusion heq
        | (simp only [Option.some.injEq, Prod.mk.injEq] at heq
           exact absurd heq.1 (by decide))
        | (have hs := lxfsFinishInsert_status dest pb ts _ _ _ heq
           exact absurd hs (by decide))
        | (simp only [Option.some.injEq, Prod.mk.injEq] at heq
           rw [← heq.2]
           simp)
        | (have hrec := ih _ _ _ _ _ _ heq rfl b
           rw [hrec]
           simp)

set_option maxHeartbeats 1000000 in
/-- Lift of the `-ENOSYS` chain preservation through the allocation phase:
only the freshly allocated object block (recorded in the returned entry's
block field) may have changed in the chain map. -/
theorem c9aux_alloc (env : Env) (fuel : Nat) (dest parent : LXFSDirectoryEntry)
    (mp : Mountpoint) (mode hl : Nat) (symlink : List Nat)
    (st : Int) (mp' : Mountpoint) (d : LXFSDirectoryEntry)
    (heq : lxfsCreateAlloc env fuel dest parent mp mode hl symlink = some (st, mp', d))
    (hst : st = -ENOSYS) :
    ∀ b, b ≠ d.block → mp'.chain b = mp.chain b := by
  intro b hb
  rw [hst] at heq
  simp only [lxfsCreateAlloc] at heq
  repeat' split at heq
  all_goals
    first
      | exact Option.noConfusion heq
      | (simp only [Option.some.injEq, Prod.mk.injEq] at heq
         exact absurd heq.1 (by decide))
      | (rename_i st2 mp2 hL
         simp only [Option.some.injEq, Prod.mk.injEq] at heq
         obtain ⟨h1, h2, h3⟩ := heq
         have hch := c9aux_loop _ _ _ _ _ _ _ _ _ _ _ hL h1
         rw [← h2, hch b]
         rw [← h3] at hb
         simp only [flushBlock_id, writeBlockLow_chain]
         exact setNextBlock_chain_ne _ _ _ _ (by simpa using hb))
      | (rename_i st2 mp2 hL
         simp only [Option.some.injEq, Prod.mk.injEq] at heq
         obtain ⟨h1, h2, h3⟩ := heq
         have hch := c9aux_loop _ _ _ _ _ _ _ _ _ _ _ hL h1
         rw [← h2, hch b]
         simp)

theorem c9aux_stage2 (env : Env) (fuel : Nat) (dest0 parent : LXFSDirectoryEntry)
    (mp : Mountpoint) (path : List Nat) (mode uid gid : Nat) (symlink : List Nat) (hl : Nat)
    (st : Int) (mp' : Mountpoint) (d : LXFSDirectoryEntry)
    (heq : lxfsCreateStage2 env fuel dest0 parent mp path mode uid gid symlink hl
        = some (st, mp', d))
    (hst : st = -ENOSYS) :
    ∀ b, b ≠ d.block → mp'.chain b = mp.chain b := by
  intro b hb
  rw [hst] at heq
  simp only [lxfsCreateStage2] at heq
  repeat' split at heq
  all_goals
    first
      | exact Option.noConfusion heq
      | (simp only [Option.some.injEq, Prod.mk.injEq] at heq
         exact absurd heq.1 (by decide))
      | exact c9aux_alloc _ _ _ _ _ _ _ _ _ _ _ heq rfl b hb

theorem c9aux_create (env : Env) (fuel : Nat) (dest0 : LXFSDirectoryEntry) (mp : Mountpoint)
    (path : List Nat) (mode uid gid : Nat) (symlink : List Nat)
    (st : Int) (mp' : Mountpoint) (d : LXFSDirectoryEntry)
    (heq : lxfsCreate env fuel dest0 mp path mode uid gid symlink = some (st, mp', d))
    (hst : st = -ENOSYS) :
    ∀ b, b ≠ d.block → mp'.chain b = mp.chain b := by
  intro b hb
  rw [hst] at heq
  simp only [lxfsCreate] at heq
  repeat' split at heq
  all_goals
    first
      | exact Option.noConfusion heq
      | (simp only [Option.some.injEq, Prod.mk.injEq] at heq
         exact absurd heq.1 (by decide))
      | exact c9aux_stage2 _ _ _ _ _ _ _ _ _ _ _ _ _ _ heq rfl b hb

set_option maxHeartbeats 2000000 in
/-- Walking a single-block parent chain whose only packed entry exactly fills
the block, with no reusable slot and a non-fitting stale upper buffer half,
reaches the chain's `EOF` and fails with `-ENOSYS` without extending the
directory's chain. -/
theorem c9aux_exhausted_walk (env : Env) (f : Nat) (dest0 : LXFSDirectoryEntry) (mp : Mountpoint)
    (path : List Nat) (mode uid gid : Nat) (symlink nm : List Nat)
    (parent : LXFSDirectoryEntry) (nb : Nat)
    (hhl : dest0.block = 0)
    (hd : env.pathDepth path ≤ 1)
    (hf : env.find [47] = some parent)
    (hnm : env.pathComponent path (env.pathDepth path - 1) = some nm)
    (hdir : (parent.flags >>> LXFS_DIR_TYPE_SHIFT) &&& LXFS_DIR_TYPE_MASK = LXFS_DIR_TYPE_DIR)
    (hperm : lxfsCreateWritePermOk parent uid gid = true)
    (hreg : S_ISREG mode = true)
    (hfb : lxfsFindFreeBlock mp 0 = nb) (hnb : nb ≠ 0)
    (hpch : mp.chain parent.block = LXFS_BLOCK_EOF)
    (hbs : LXFS_DIRHDR_SIZE < mp.blockSizeBytes)
    (hfitA : lxfsFreeFits ((mp.disk parent.block).entAt LXFS_DIRHDR_SIZE)
        (LXFS_DIRENT_STRUCT_SIZE + nm.length - 511) = false)
    (hsz : ((mp.disk parent.block).entAt LXFS_DIRHDR_SIZE).entrySize
        = mp.blockSizeBytes - LXFS_DIRHDR_SIZE)
    (hfitB : lxfsFreeFits (mp.buf.ents mp.blockSizeBytes)
        (LXFS_DIRENT_STRUCT_SIZE + nm.length - 511) = false)
    (hio : ∀ k, mp.ioFail k = false) :
    ∃ mp' d, lxfsCreate env (f + 2) dest0 mp path mode uid gid symlink = some (-ENOSYS, mp', d)
      ∧ (∀ b, b ≠ nb → mp'.chain b = mp.chain b)
      ∧ mp'.chain parent.block = LXFS_BLOCK_EOF
      ∧ d.block = nb := by
  have hfree := lxfsFindFreeBlock_free mp 0 nb hfb hnb
  have hEOFne : LXFS_BLOCK_EOF ≠ 0 := by decide
  have hne : parent.block ≠ nb := by
    intro h
    rw [h, hfree] at hpch
    exact hEOFne hpch.symm
  have hsum : LXFS_DIRHDR_SIZE + (mp.blockSizeBytes - LXFS_DIRHDR_SIZE) = mp.blockSizeBytes :=
    Nat.add_sub_cancel' (le_of_lt hbs)
  simp only [lxfsCreate, hd, if_pos, hf, lxfsCreateStage2, hnm, hdir, hperm,
    lxfsCreateAlloc, hhl, hfb, hnb, ioStep, lxfsSetNextBlock, hio,
    lxfsWriteBlockLow, lxfsReadBlockLow, memsetLow, lxfsFlushBlock, hreg, ne_eq, not_true, ite_true,
    ite_false, not_false_eq_true, if_true, if_false, reduceIte, Bool.false_eq_true,
    Bool.true_eq_false, lxfsInsertLoop, lxfsReadNextBlock, lxfsReadBlockHigh, loadLow,
    loadHigh, lowProj, lxfsScanStep, lxfsFillEntry, writeEntryAt, lxfsFinishInsert,
    hne, hpch, hbs, hEOFne, hfitA, hsz, hsum, lt_irrefl, hfitB]
  refine ⟨_, _, rfl, ?_, ?_, ?_⟩
  · intro b hb
    simp [hb]
  · simp [hne.symm, hpch]
  · rfl

/-- C9: whenever lxfsCreate returns the not-implemented error `-ENOSYS` — the
chain-exhausted outcome — the chain map is unchanged except possibly at the
new object's own pre-allocated block: the directory's chain has not been
extended (universal conjunct); and a parent whose single-block chain is
walked to `EOF` with no slot satisfying the free-and-fits test does produce
exactly that `-ENOSYS` failure with the parent's chain entry still `EOF`
(second conjunct). -/
theorem c9_chain_exhausted_enosys_no_extension :
    (∀ (env : Env) (fuel : Nat) (dest0 : LXFSDirectoryEntry) (mp : Mountpoint)
      (path : List Nat) (mode uid gid : Nat) (symlink : List Nat)
      (st : Int) (mp' : Mountpoint) (d : LXFSDirectoryEntry),
      lxfsCreate env fuel dest0 mp path mode uid gid symlink = some (st, mp', d) →
      st = -ENOSYS →
      ∀ b, b ≠ d.block → mp'.chain b = mp.chain b)
    ∧ (∀ (env : Env) (f : Nat) (dest0 : LXFSDirectoryEntry) (mp : Mountpoint)
      (path : List Nat) (mode uid gid : Nat) (symlink nm : List Nat)
      (parent : LXFSDirectoryEntry) (nb : Nat),
      dest0.block = 0 →
      env.pathDepth path ≤ 1 →
      env.find [47] = some parent →
      env.pathComponent path (env.pathDepth path - 1) = some nm →
      (parent.flags >>> LXFS_DIR_TYPE_SHIFT) &&& LXFS_DIR_TYPE_MASK = LXFS_DIR_TYPE_DIR →
      lxfsCreateWritePermOk parent uid gid = true →
      S_ISREG mode = true →
      lxfsFindFreeBlock mp 0 = nb → nb ≠ 0 →
      mp.chain parent.block = LXFS_BLOCK_EOF →
      LXFS_DIRHDR_SIZE < mp.blockSizeBytes →
      lxfsFreeFits ((mp.disk parent.block).entAt LXFS_DIRHDR_SIZE)
        (LXFS_DIRENT_STRUCT_SIZE + nm.length - 511) = false →
      ((mp.disk parent.block).entAt LXFS_DIRHDR_SIZE).entrySize
        = mp.blockSizeBytes - LXFS_DIRHDR_SIZE →
      lxfsFreeFits (mp.buf.ents mp.blockSizeBytes)
        (LXFS_DIRENT_STRUCT_SIZE + nm.length - 511) = false →
      (∀ k, mp.ioFail k = false) →
      ∃ mp' d, lxfsCreate env (f + 2) dest0 mp path mode uid gid symlink
          = some (-ENOSYS, mp', d)
        ∧ (∀ b, b ≠ nb → mp'.chain b = mp.chain b)
        ∧ mp'.chain parent.block = LXFS_BLOCK_EOF
        ∧ d.block = nb) := by
  constructor
  · intro env fuel dest0 mp path mode uid gid symlink st mp' d heq hst
    exact c9aux_create env fuel dest0 mp path mode uid gid symlink st mp' d heq hst
  · intro env f dest0 mp path mode uid gid symlink nm parent nb hhl hd hf hnm hdir hperm hreg
      hfb hnb hpch hbs hfitA hsz hfitB hio
    exact c9aux_exhausted_walk env f dest0 mp path mode uid gid symlink nm parent nb
      hhl hd hf hnm hdir hperm hreg hfb hnb hpch hbs hfitA hsz hfitB hio

/-- Witness volume for the exhausted-walk theorem: the parent's single block
is exactly filled by one valid 464-byte entry, the stale upper half of the
scratch buffer holds a valid (non-reusable) record, block 3 is free. -/
def c9wmp : Mountpoint :=
  { blockSizeBytes := 512, nBlocks := 8
    chain := fun b => if b = 3 then 0 else LXFS_BLOCK_EOF
    disk := fun b =>
      if b = 2 then { bd0 with entAt := fun o =>
        if o = 48 then { zeroEntry with flags := 1, entrySize := 464 } else zeroEntry }
      else bd0
    meta := bd0
    buf := { buf0 with ents := fun _ => c3slotA }
    ioFail := fun _ => false, ioCount := 0 }

/-- Witness for the chain-exhaustion theorem: instantiating its second
conjunct at the concrete witness volume yields the `-ENOSYS` failure with
the directory chain unextended. -/
theorem c9_chain_exhausted_enosys_no_extension_witness :
    ∃ mp' d, lxfsCreate c3wenv 6 zeroEntry c9wmp [47, 98] 33188 1 1 []
        = some (-ENOSYS, mp', d)
      ∧ (∀ b, b ≠ 3 → mp'.chain b = c9wmp.chain b)
      ∧ mp'.chain 2 = LXFS_BLOCK_EOF
      ∧ d.block = 3 :=
  c9_chain_exhausted_enosys_no_extension.2 c3wenv 4 zeroEntry c9wmp [47, 98] 33188 1 1 []
    [98] c3wparent 3 (by decide) (by decide) (by decide) (by decide) (by decide) (by decide)
    (by decide) (by decide) (by decide) (by decide) (by decide) (by decide) (by decide)
    (by decide) (fun _ => rfl)

set_option maxHeartbeats 1000000 in
/-- A successful non-hard-link regular-file creation on the non-straddling
insertion path populates the new entry exactly as create.c lines 81-107 do:
valid flags with the mode-derived type tag, permissions equal to the
template's prior bits or-ed with the mode translation, owner/group from the
caller, and the three timestamps all equal to the creation instant. -/
theorem c6aux_run (env : Env) (f : Nat) (dest0 : LXFSDirectoryEntry) (mp : Mountpoint)
    (path : List Nat) (mode uid gid : Nat) (symlink nm : List Nat)
    (parent : LXFSDirectoryEntry) (nb : Nat)
    (hhl : dest0.block = 0)
    (hd : env.pathDepth path ≤ 1)
    (hf : env.find [47] = some parent)
    (hnm : env.pathComponent path (env.pathDepth path - 1) = some nm)
    (hdir : (parent.flags >>> LXFS_DIR_TYPE_SHIFT) &&& LXFS_DIR_TYPE_MASK = LXFS_DIR_TYPE_DIR)
    (hperm : lxfsCreateWritePermOk parent uid gid = true)
    (hreg : S_ISREG mode = true)
    (hfb : lxfsFindFreeBlock mp 0 = nb) (hnb : nb ≠ 0)
    (hpch : mp.chain parent.block = LXFS_BLOCK_EOF)
    (hbs : LXFS_DIRHDR_SIZE < mp.blockSizeBytes)
    (hfit : lxfsFreeFits ((mp.disk parent.block).entAt LXFS_DIRHDR_SIZE)
        (LXFS_DIRENT_STRUCT_SIZE + nm.length - 511) = true)
    (hin : LXFS_DIRHDR_SIZE + (LXFS_DIRENT_STRUCT_SIZE + nm.length - 511) ≤ mp.blockSizeBytes)
    (hio : ∀ k, mp.ioFail k = false) :
    ∃ mp' d, lxfsCreate env (f + 1) dest0 mp path mode uid gid symlink = some (0, mp', d)
      ∧ d.permissions = dest0.permissions ||| lxfsPermTranslate mode
      ∧ d.flags = LXFS_DIR_VALID ||| lxfsTypeOfMode 0 mode
      ∧ d.owner = uid ∧ d.group = gid
      ∧ d.createTime = env.now ∧ d.accessTime = env.now ∧ d.modTime = env.now
      ∧ d.block = nb ∧ d.name = nm
      ∧ d.entrySize = LXFS_DIRENT_STRUCT_SIZE + nm.length - 511
      ∧ d.size = 0 := by
  have hfree := lxfsFindFreeBlock_free mp 0 nb hfb hnb
  have hEOFne : LXFS_BLOCK_EOF ≠ 0 := by decide
  have hne : parent.block ≠ nb := by
    intro h
    rw [h, hfree] at hpch
    exact hEOFne hpch.symm
  simp only [lxfsCreate, hd, if_pos, hf, lxfsCreateStage2, hnm, hdir, hperm,
    lxfsCreateAlloc, hhl, hfb, hnb, ioStep, lxfsSetNextBlock, hio,
    lxfsWriteBlockLow, lxfsReadBlockLow, memsetLow, lxfsFlushBlock, hreg, ne_eq, not_true, ite_true,
    ite_false, not_false_eq_true, if_true, if_false, reduceIte, Bool.false_eq_true,
    Bool.true_eq_false, lxfsInsertLoop, lxfsReadNextBlock, lxfsReadBlockHigh, loadLow,
    loadHigh, lowProj, lxfsScanStep, lxfsFillEntry, writeEntryAt, lxfsFinishInsert,
    hne, hpch, hbs, hin, hEOFne, hfit, hhl]
  exact ⟨_, _, rfl, by simp [hhl], rfl, rfl, rfl, rfl, rfl, rfl, rfl, rfl, rfl, rfl⟩

/-- Sample volume with clean parent `/d` at block 2 and all I/O succeeding. -/
def c6mp : Mountpoint :=
  { blockSizeBytes := 512, nBlocks := 8
    chain := fun b => if b = 3 then 0 else LXFS_BLOCK_EOF
    disk := fun _ => bd0
    meta := bd0, buf := buf0, ioFail := fun _ => false, ioCount := 0 }

/-- Creation of `/d/b` from a template whose permissions field already holds
the stray bit 256 (outside the translation of mode 0100644). -/
def c6run : Option (Int × Mountpoint × LXFSDirectoryEntry) :=
  lxfsCreate c2env 6 { zeroEntry with permissions := 256 } c6mp [47, 100, 47, 98] 33188 1 1 []

/-- C6 counterexample: mode 0100644 translates to permission bits 75, but a
successful creation from a template whose permissions field held the stray
bit 256 produces an entry with permissions 331 = 256 ||| 75 ≠ 75: create.c
lines 88-96 or the translation into the caller's template without clearing
the field first, so the produced permission bits do not equal the four-class
translation of the mode bits. -/
theorem c6_template_permission_bits_leak :
    lxfsPermTranslate 33188 = 75
    ∧ (c6run.map fun r => (r.1, r.2.2.permissions)) = some (0, 331)
    ∧ (331 : Nat) ≠ 75 := by
  refine ⟨by decide, by decide, by decide⟩

/-- C6 (amended): the entry produced by a successful non-hard-link creation
has its type tag matching the requested mode (file/directory/symlink, with
hard-link mode overriding), owner and group equal to the supplied uid and
gid, identical create/access/modify timestamps, and permission bits equal to
the template's incoming permission bits OR-ed with the four-class
translation of the mode bits (hence equal to the translation exactly when
the template field starts zeroed). -/
theorem c6_created_entry_fields :
    (∀ (env : Env) (f : Nat) (dest0 : LXFSDirectoryEntry) (mp : Mountpoint)
      (path : List Nat) (mode uid gid : Nat) (symlink nm : List Nat)
      (parent : LXFSDirectoryEntry) (nb : Nat),
      dest0.block = 0 →
      env.pathDepth path ≤ 1 →
      env.find [47] = some parent →
      env.pathComponent path (env.pathDepth path - 1) = some nm →
      (parent.flags >>> LXFS_DIR_TYPE_SHIFT) &&& LXFS_DIR_TYPE_MASK = LXFS_DIR_TYPE_DIR →
      lxfsCreateWritePermOk parent uid gid = true →
      S_ISREG mode = true →
      lxfsFindFreeBlock mp 0 = nb → nb ≠ 0 →
      mp.chain parent.block = LXFS_BLOCK_EOF →
      LXFS_DIRHDR_SIZE < mp.blockSizeBytes →
      lxfsFreeFits ((mp.disk parent.block).entAt LXFS_DIRHDR_SIZE)
        (LXFS_DIRENT_STRUCT_SIZE + nm.length - 511) = true →
      LXFS_DIRHDR_SIZE + (LXFS_DIRENT_STRUCT_SIZE + nm.length - 511) ≤ mp.blockSizeBytes →
      (∀ k, mp.ioFail k = false) →
      ∃ mp' d, lxfsCreate env (f + 1) dest0 mp path mode uid gid symlink = some (0, mp', d)
        ∧ d.permissions = dest0.permissions ||| lxfsPermTranslate mode
        ∧ d.flags = LXFS_DIR_VALID ||| lxfsTypeOfMode 0 mode
        ∧ d.owner = uid ∧ d.group = gid
        ∧ d.createTime = env.now ∧ d.accessTime = env.now ∧ d.modTime = env.now
        ∧ d.block = nb ∧ d.name = nm
        ∧ d.entrySize = LXFS_DIRENT_STRUCT_SIZE + nm.length - 511
        ∧ d.size = 0)
    ∧ (∀ m, S_ISREG m = true →
        lxfsTypeOfMode 0 m = LXFS_DIR_TYPE_FILE <<< LXFS_DIR_TYPE_SHIFT)
    ∧ (∀ m, S_ISLNK m = true →
        lxfsTypeOfMode 0 m = LXFS_DIR_TYPE_SOFT_LINK <<< LXFS_DIR_TYPE_SHIFT)
    ∧ (∀ m, S_ISDIR m = true →
        lxfsTypeOfMode 0 m = LXFS_DIR_TYPE_DIR <<< LXFS_DIR_TYPE_SHIFT)
    ∧ (∀ m hl, hl ≠ 0 →
        lxfsTypeOfMode hl m = LXFS_DIR_TYPE_HARD_LINK <<< LXFS_DIR_TYPE_SHIFT) := by
  refine ⟨?_, ?_, ?_, ?_, ?_⟩
  · intro env f dest0 mp path mode uid gid symlink nm parent nb hhl hd hf hnm hdir hperm hreg
      hfb hnb hpch hbs hfit hin hio
    exact c6aux_run env f dest0 mp path mode uid gid symlink nm parent nb
      hhl hd hf hnm hdir hperm hreg hfb hnb hpch hbs hfit hin hio
  · intro m h
    simp [lxfsTypeOfMode, h]
  · intro m h
    have hr : S_ISREG m = false := by
      unfold S_ISLNK at h
      unfold S_ISREG
      rw [beq_iff_eq] at h
      rw [h]
      decide
    simp [lxfsTypeOfMode, h, hr]
  · intro m h
    have hr : S_ISREG m = false := by
      unfold S_ISDIR at h
      unfold S_ISREG
      rw [beq_iff_eq] at h
      rw [h]
      decide
    have hl : S_ISLNK m = false := by
      unfold S_ISDIR at h
      unfold S_ISLNK
      rw [beq_iff_eq] at h
      rw [h]
      decide
    simp [lxfsTypeOfMode, h, hr, hl]
  · intro m hl h
    simp [lxfsTypeOfMode, h]

/-- Witness for the created-entry theorem: instantiating its universal
conjunct at a zero-permission template on the clean witness volume. -/
theorem c6_created_entry_fields_witness :
    ∃ mp' d, lxfsCreate c3wenv 6 zeroEntry c6mp [47, 98] 33188 1 1 [] = some (0, mp', d)
      ∧ d.permissions = zeroEntry.permissions ||| lxfsPermTranslate 33188
      ∧ d.flags = LXFS_DIR_VALID ||| lxfsTypeOfMode 0 33188
      ∧ d.owner = 1 ∧ d.group = 1
      ∧ d.createTime = c3wenv.now ∧ d.accessTime = c3wenv.now ∧ d.modTime = c3wenv.now
      ∧ d.block = 3 ∧ d.name = [98]
      ∧ d.entrySize = LXFS_DIRENT_STRUCT_SIZE + [98].length - 511
      ∧ d.size = 0 :=
  c6_created_entry_fields.1 c3wenv 5 zeroEntry c6mp [47, 98] 33188 1 1 [] [98] c3wparent 3
    (by decide) (by decide) (by decide) (by decide) (by decide) (by decide) (by decide)
    (by decide) (by decide) (by decide) (by decide) (by decide) (by decide) (fun _ => rfl)

set_option maxHeartbeats 1000000 in
/-- C10: opening a path that resolves to a soft-link entry with the truncate
flag set executes the whole truncation against the soft link's own first
data block — the block that holds the target string — before the soft-link
type check and redirection: the open call literally unfolds to a recursive
open of the rewritten target path from a state in which the link's block has
size 0 written into its File-Header position and its chain entry re-marked
`EOF`, every other block untouched (open.c lines 80-114 precede lines
117-136). -/
theorem c10_trunc_applies_to_softlink_block (env : Env) (fuel : Nat) (mp : Mountpoint)
    (cmd : OpenCommand) (L : LXFSDirectoryEntry)
    (hfind : env.find cmd.path = some L)
    (hty : (L.flags >>> LXFS_DIR_TYPE_SHIFT) &&& LXFS_DIR_TYPE_MASK = LXFS_DIR_TYPE_SOFT_LINK)
    (htr : cmd.flags &&& O_TRUNC ≠ 0)
    (hexcl : ¬(cmd.flags &&& O_CREAT ≠ 0 ∧ cmd.flags &&& O_EXCL ≠ 0))
    (hio : ∀ k, mp.ioFail k = false)
    (hblk : L.block ≠ LXFS_BLOCK_EOF) :
    ∃ mpT p1, lxfsOpen env (fuel + 1) mp cmd
        = lxfsOpen env fuel mpT { cmd with path := p1, abspath := 47 :: p1 }
      ∧ mpT.chain L.block = LXFS_BLOCK_EOF
      ∧ (∀ b, b ≠ L.block → mpT.chain b = mp.chain b)
      ∧ (mpT.disk L.block).fileHeader.size = 0
      ∧ (mpT.disk L.block).fileHeader.refCount = (mp.disk L.block).fileHeader.refCount
      ∧ (mpT.disk L.block).raw = (mp.disk L.block).raw
      ∧ (∀ b, b ≠ L.block → mpT.disk b = mp.disk b) := by
  have htyne : LXFS_DIR_TYPE_SOFT_LINK ≠ LXFS_DIR_TYPE_DIR := by decide
  have hEOFne : LXFS_BLOCK_EOF ≠ 0 := by decide
  simp only [lxfsOpen, hfind, hty, htyne, htr, hexcl, lxfsOpenTrunc, lxfsTruncLoop,
    lxfsReadBlockMeta, lxfsWriteBlockMeta, lxfsSetNextBlock, lxfsNextBlock, ioStep, hio,
    hblk, hEOFne, ne_eq, not_true, ite_true, ite_false, not_false_eq_true, if_true,
    if_false, reduceIte, Bool.false_eq_true, Bool.true_eq_false, if_neg, if_pos]
  refine ⟨_, _, rfl, ?_, ?_, ?_, ?_, ?_, ?_⟩
  · simp
  · intro b hb
    simp [hb]
  · simp
  · simp
  · simp
  · intro b hb
    simp [hb]

/-- Sample volume for the soft-link truncation witness: `/a` is a soft link
at block 2 whose data block holds the target string "/b" (bytes 47, 98) and
whose stale File Header reads size 77; the target `/b` is a regular file at
block 6. -/
def c10link : LXFSDirectoryEntry :=
  { zeroEntry with flags := 5, block := 2, size := 2, owner := 1, group := 1 }

def c10target : LXFSDirectoryEntry :=
  { zeroEntry with flags := 1, block := 6, permissions := 75, owner := 1, group := 1, size := 50 }

def c10mp : Mountpoint :=
  { blockSizeBytes := 512, nBlocks := 8
    chain := fun b => if b = 2 then 9 else LXFS_BLOCK_EOF
    disk := fun b =>
      if b = 2 then { bd0 with raw := [47, 98], fileHeader := { refCount := 1, size := 77 } }
      else if b = 6 then { bd0 with fileHeader := { refCount := 1, size := 50 } }
      else bd0
    meta := bd0, buf := buf0, ioFail := fun _ => false, ioCount := 0 }

def c10env : Env :=
  { now := 0
    find := fun p => if p = [47, 97] then some c10link else if p = [98] then some c10target else none
    pathDepth := fun _ => 2
    parentPathOf := fun _ => none
    pathComponent := fun _ _ => none
    stackEntry := zeroEntry }

def c10cmd : OpenCommand :=
  { path := [47, 97], abspath := [47, 97], flags := 17, mode := 0, umask := 0, uid := 1, gid := 1 }

/-- Witness for the soft-link truncation theorem: instantiating it at the
concrete witness volume. -/
theorem c10_trunc_applies_to_softlink_block_witness :
    ∃ mpT p1, lxfsOpen c10env 3 c10mp c10cmd
        = lxfsOpen c10env 2 mpT { c10cmd with path := p1, abspath := 47 :: p1 }
      ∧ mpT.chain 2 = LXFS_BLOCK_EOF
      ∧ (∀ b, b ≠ 2 → mpT.chain b = c10mp.chain b)
      ∧ (mpT.disk 2).fileHeader.size = 0
      ∧ (mpT.disk 2).fileHeader.refCount = (c10mp.disk 2).fileHeader.refCount
      ∧ (mpT.disk 2).raw = (c10mp.disk 2).raw
      ∧ (∀ b, b ≠ 2 → mpT.disk b = c10mp.disk b) :=
  c10_trunc_applies_to_softlink_block c10env 2 c10mp c10cmd c10link rfl (by decide)
    (by decide) (by decide) (fun _ => rfl) (by decide)
